import Mathlib

/-
Verification of the cfobs observation-to-model matching pipeline.

This file gives a shallow embedding, in Lean 4, of the core components of the
cfobs repository (add_cf_to_obs.py, read_cf.py, units.py, seasons.py,
statistics.py, table_of_stations.py) and proves or refutes the frozen claims
about them.

Modelling conventions:
  * Python/numpy floating point numbers are embedded as exact rationals.
  * NaN-able numeric cells are `Option Rat` (`none` = NaN or non-finite).
  * pandas data frames are lists of records; a frame-wide NaN-initialized
    column is represented by an association list in which an absent key reads
    as NaN.
  * File I/O (xarray open_dataset / open_mfdataset) is abstracted by an
    oracle parameter mapping a (template, timestamp) pair to either a parsed
    dataset or a read error; `parse_date` (a pure strftime) is folded into
    the oracle key.
  * Python exceptions (assert failures, KeyError, NameError, TypeError) are
    an `Except PyErr` result; the integer `rc` return code of
    read_cf_data_2d is modelled separately, as in the source.

The file is organized as definitions first (the embedding), then theorems.
-/

namespace CFObs

/-! ## NaN-able rationals (numpy float cells) -/

/-- A numeric cell that may be NaN; `none` models numpy NaN (and, where
division by zero would give an IEEE infinity, any non-finite result). -/
abbrev QN := Option ℚ

/-- Addition with NaN propagation. -/
def qnAdd : QN → QN → QN
  | some a, some b => some (a + b)
  | _, _ => none

/-- Multiplication with NaN propagation. -/
def qnMul : QN → QN → QN
  | some a, some b => some (a * b)
  | _, _ => none

/-! ## Python values used as dictionary keys / keyword arguments -/

/-- A Python value that can be passed where the source expects a string key
or a numeric scale factor.  The misaligned positional call at
add_cf_to_obs.py line 130 passes the float `1.0` where a key is expected,
so both possibilities must be representable. -/
inductive PyVal where
  | str (s : String)
  | num (q : ℚ)
deriving DecidableEq, Repr

/-- Decidable equality for `Except` results, so that concrete runs of the
embedded code can be checked by `decide`. -/
instance instDecEqExcept {ε α : Type} [DecidableEq ε] [DecidableEq α] :
    DecidableEq (Except ε α) := fun a b =>
  match a, b with
  | .error e1, .error e2 =>
    if h : e1 = e2 then isTrue (by rw [h])
    else isFalse (by intro hc; cases hc; exact h rfl)
  | .error _, .ok _ => isFalse (by intro hc; cases hc)
  | .ok _, .error _ => isFalse (by intro hc; cases hc)
  | .ok a1, .ok a2 =>
    if h : a1 = a2 then isTrue (by rw [h])
    else isFalse (by intro hc; cases hc; exact h rfl)

/-- Python runtime errors raised by the embedded code. -/
inductive PyErr where
  | assertMw (ivar : String)     -- add_cf_to_obs.py line 171: mw missing for ppbv
  | assertConvMissing            -- add_cf_to_obs.py line 172: conv is None
  | assertMetMissing             -- units.py line 57: temp/press missing
  | nameError                    -- units.py line 58: undefined names temperature/pressure
  | assertNameOnFile (v : String)  -- read_cf.py line 154
  | keyError (k : String)        -- missing dictionary / dataset key
  | typeError                    -- arithmetic on a non-numeric value
  | squeezeError                 -- read_cf.py line 133 on an empty time axis
deriving DecidableEq, Repr

/-! ## Nearest-index search (np.abs(xs - x).argmin()) -/

/-- Tail of the argmin scan: first-occurrence minimal distance, as with
numpy argmin. -/
def argminAbsGo (x : ℚ) : ℕ → ℕ → ℚ → List ℚ → ℕ
  | _, best, _, [] => best
  | i, best, bestd, y :: ys =>
    let d := |y - x|
    if d < bestd then argminAbsGo x (i + 1) i d ys
    else argminAbsGo x (i + 1) best bestd ys

/-- Embeds `np.abs(xs - x).argmin()`: index of the element of `xs` nearest
to `x`, ties broken by first occurrence.  numpy raises on an empty array;
that case is unreachable at every call site and totalized to 0. -/
def argminAbs (xs : List ℚ) (x : ℚ) : ℕ :=
  match xs with
  | [] => 0
  | y :: ys => argminAbsGo x 1 0 (|y - x|) ys

/-- Map over a list with the position of each element, starting the count
at `j` (models updates addressed by a pandas row-index set). -/
def mapIdxFrom {α β : Type} (f : ℕ → α → β) : ℕ → List α → List β
  | _, [] => []
  | j, a :: l => f j a :: mapIdxFrom f (j + 1) l

/-! ## seasons.py -/

/-- Embeds `season_lookup_table` from seasons.py. -/
def season_lookup_table : List (ℕ × String) :=
  [(1, "DJF"), (2, "MAM"), (3, "JJA"), (4, "SON")]

/-- Dictionary `.get` on the season lookup table. -/
def season_lookup (i : ℕ) : Option String :=
  (season_lookup_table.find? (fun p => p.1 == i)).map Prod.snd

/-- The per-row month formula of `set_season` (seasons.py line 31):
`(month % 12 + 3) // 3`. -/
def set_season_number (month : ℕ) : ℕ := (month % 12 + 3) / 3

/-- Embeds `get_season_name` (seasons.py line 37):
`season_lookup_table.get(i % 4)`. -/
def get_season_name (i : ℕ) : Option String := season_lookup (i % 4)

/-! ## units.py constants -/

/-- Gas constant from units.py line 15 (8.3145 J K-1 mol-1). -/
def RCONST : ℚ := 83145 / 10000

/-- Conversion factor from ppmv to ppbv, units.py line 16. -/
def PPM2PPB : ℚ := 1000

/-! ## Station identity scalar and rounding (table_of_stations.py) -/

/-- Embeds the identity scalar `(lat+90.0)*1.0e7+(lon+180.0)` computed at
table_of_stations.py line 60. -/
def latlon_id (lat lon : ℚ) : ℚ := (lat + 90) * 10000000 + (lon + 180)

/-- Banker-style rounding (round half to even), the rounding rule of
`numpy.round`. -/
def roundHalfEven (q : ℚ) : ℤ :=
  let f := ⌊q⌋
  if q - f < 1 / 2 then f
  else if 1 / 2 < q - f then f + 1
  else if f % 2 = 0 then f else f + 1

/-- Embeds `.round(4)` applied to the lat/lon columns
(table_of_stations.py lines 58-59), idealized to exact rationals. -/
def round4 (x : ℚ) : ℚ := (roundHalfEven (x * 10000) : ℚ) / 10000

/-! ## Gridded 2-D fields and CF data dictionaries -/

/-- A 2-D gridded field: cells are indexed `cells[latidx][lonidx]`, matching
the `values[latidx, lonidx]` accesses in the source. -/
abbrev Grid2 := List (List QN)

/-- Cell access with NaN default (out-of-range indices are unreachable at
call sites where the index was produced by `argminAbs` over the matching
coordinate axis). -/
def getCell (g : Grid2) (i j : ℕ) : QN :=
  match g[i]? with
  | none => none
  | some row =>
    match row[j]? with
    | none => none
    | some c => c

/-- Scale every cell of a grid by a factor. -/
def gridScale (g : Grid2) (s : ℚ) : Grid2 :=
  g.map (fun row => row.map (fun c => qnMul c (some s)))

/-- The dictionary returned by `read_cf_data_2d`: keys `lons`/`lats` hold
the coordinate axes once the first collection has been read, and each
requested variable name maps to a 2-D field. -/
structure CFData where
  lons : Option (List ℚ)
  lats : Option (List ℚ)
  fields : List (String × Grid2)
deriving DecidableEq, Repr

/-- Association-list lookup for string-keyed dictionaries. -/
def lookupStr {α : Type} (l : List (String × α)) (k : String) : Option α :=
  (l.find? (fun p => p.1 == k)).map Prod.snd

/-- Python `key in dat` on the CF data dictionary.  All keys of the
dictionary are strings, so membership of a numeric value is always false
(this is what makes the misaligned call at add_cf_to_obs.py line 130
always return None). -/
def CFData.hasKey (dat : CFData) (k : PyVal) : Bool :=
  match k with
  | .str s =>
      (s == "lons" && dat.lons.isSome) || (s == "lats" && dat.lats.isSome)
        || dat.fields.any (fun p => p.1 == s)
  | .num _ => false

/-- A conversion-factor field (an xarray DataArray with its own lat/lon
coordinate axes), as consumed by `to_ppbv`. -/
structure ConvField where
  lats : List ℚ
  lons : List ℚ
  cells : Grid2
deriving DecidableEq, Repr

/-! ## units.py: get_conv_ugm3_to_ppbv and to_ppbv -/

/-- Embeds `get_conv_ugm3_to_ppbv(dat, temperature_name, temperature_scal,
pressure_name, pressure_scal, mw)` (units.py lines 19-29).  Returns `none`
for Python None when either name is not a key of `dat`; otherwise the
factor field `T*tscal*RCONST*1e-6/(P*pscal*mw)*1e9` is built cellwise.
The arithmetic branch can only execute with numeric scale factors; a
string scale factor (as bound by the misaligned call at add_cf_to_obs.py
line 130) would raise a TypeError, modelled as an inner `Except` error.
Division by a zero cell, which numpy would map to an IEEE infinity, is
modelled as a NaN cell; no theorem depends on that branch. -/
def get_conv_ugm3_to_ppbv (dat : CFData) (temperature_name : PyVal)
    (temperature_scal : PyVal) (pressure_name : PyVal) (pressure_scal : PyVal)
    (mw : ℚ) : Option (Except PyErr ConvField) :=
  if ¬ (dat.hasKey temperature_name = true) ∨ ¬ (dat.hasKey pressure_name = true) then
    none
  else
    some (
      match temperature_name, pressure_name with
      | .str tn, .str pn =>
        match lookupStr dat.fields tn, lookupStr dat.fields pn with
        | some tG, some pG =>
          match temperature_scal, pressure_scal with
          | .num ts, .num ps =>
            let cells : Grid2 :=
              mapIdxFrom (fun i row => mapIdxFrom (fun j t =>
                match t, getCell pG i j with
                | some tv, some pv =>
                  if pv * ps * mw = 0 then none
                  else some (tv * ts * RCONST * (1 / 10 ^ 6) / (pv * ps * mw) * 10 ^ 9)
                | _, _ => none) 0 row) 0 tG
            .ok ⟨dat.lats.getD [], dat.lons.getD [], cells⟩
          | _, _ => .error .typeError
        | _, _ => .error (.keyError "conv")
      | _, _ => .error .typeError)

/-- The exact call at add_cf_to_obs.py line 130:
`get_conv_ugm3_to_ppbv(dat,'t10m','ps',1.0)`.  The positional arguments
bind as temperature_name='t10m', temperature_scal='ps',
pressure_name=1.0, with pressure_scal and mw left at their defaults. -/
def conv_at_line130 (dat : CFData) : Option (Except PyErr ConvField) :=
  get_conv_ugm3_to_ppbv dat (.str "t10m") (.str "ps") (.num 1) (.num 1) 1

/-! ## Timestamps and observation rows -/

/-- A datetime value, by components (Python `datetime.datetime`; the
pipeline works in UTC). -/
structure Timestamp where
  year : ℤ
  month : ℕ
  day : ℕ
  hour : ℕ
  minute : ℕ
  second : ℕ
deriving DecidableEq, Repr

/-- Embeds `dt.datetime(i.year, i.month, i.day, i.hour, 0, 0)`
(add_cf_to_obs.py line 72): truncation of a timestamp to the hour. -/
def truncHour (t : Timestamp) : Timestamp :=
  ⟨t.year, t.month, t.day, t.hour, 0, 0⟩

/-- Days since 1970-01-01 of a proleptic-Gregorian civil date (the
calendar of Python datetime). -/
def daysFromCivil (y : ℤ) (m d : ℤ) : ℤ :=
  let y2 := if m ≤ 2 then y - 1 else y
  let era := Int.fdiv y2 400
  let yoe := y2 - era * 400
  let mp := Int.emod (m + 9) 12
  let doy := Int.fdiv (153 * mp + 2) 5 + d - 1
  let doe := yoe * 365 + Int.fdiv yoe 4 - Int.fdiv yoe 100 + doy
  era * 146097 + doe - 719468

/-- Nanoseconds since the epoch of a timestamp (np.datetime64 resolution,
as used by the time axes of the model datasets). -/
def nsOf (t : Timestamp) : ℤ :=
  ((daysFromCivil t.year t.month t.day) * 86400
    + (t.hour : ℤ) * 3600 + (t.minute : ℤ) * 60 + (t.second : ℤ)) * 1000000000

/-- An input observation row (the normalized schema consumed by add_cf).
Character metadata columns beyond the aggregation key are dropped by the
groupby and restored by add_cf_to_obs.py lines 93-106; they are carried by
no claim and not modelled.  NaN-valued rows are dropped by upstream QC
(spec section 7c) and not modelled either. -/
structure ObsRow where
  time : Timestamp
  location : String
  obstype : String
  unit : String
  lat : ℚ
  lon : ℚ
  value : ℚ
deriving DecidableEq, Repr

/-- A matched/augmented row: the aggregated observation row plus the model
columns added at add_cf_to_obs.py lines 82-84.  `modExtra` holds the
dynamic `modcol+suffix` columns; an absent key reads as a frame-wide
NaN-initialized column (lines 150-151). -/
structure MRow where
  time : Timestamp
  location : String
  obstype : String
  unit : String
  lat : ℚ
  lon : ℚ
  value : ℚ
  conc_mod : QN
  conc_obs : QN
  conc_unit : String
  modExtra : List (String × QN)
  season : Option ℕ
deriving DecidableEq, Repr

/-- The default model-value column name (`modcol` argument of add_cf). -/
def modcolName : String := "conc_mod"

/-- Read a model column of a row by name. -/
def getModCol (r : MRow) (c : String) : QN :=
  if c == modcolName then r.conc_mod
  else (lookupStr r.modExtra c).getD none

/-- Write a model column of a row by name. -/
def setModCol (r : MRow) (c : String) (v : QN) : MRow :=
  if c == modcolName then { r with conc_mod := v }
  else if r.modExtra.any (fun p => p.1 == c) then
    { r with modExtra := r.modExtra.map (fun p => if p.1 == c then (c, v) else p) }
  else { r with modExtra := r.modExtra ++ [(c, v)] }

/-- Row selection `df.loc[idx, 'unit'] == 'ugm-3'` of units.py line 53. -/
def ppbvSelU (df : List MRow) (idx : List ℕ) : List ℕ :=
  idx.filter (fun i =>
    match df[i]? with
    | some r => r.unit == "ugm-3"
    | none => false)

/-- Row selection for units `ppmv`/`ppm` of units.py line 66. -/
def ppbvSelP (df : List MRow) (idx : List ℕ) : List ℕ :=
  idx.filter (fun i =>
    match df[i]? with
    | some r => r.unit == "ppmv" || r.unit == "ppm"
    | none => false)

/-- The ugm-3 branch of to_ppbv (units.py lines 52-63): if any selected
row has unit `ugm-3`, multiply its value by the nearest
conversion-factor cell times `convscal`; a missing factor is an assert
on the met fields (line 57) or, with both met fields given, the undefined
names `temperature`/`pressure` of line 58 (a NameError). -/
def ppbvStage1 (df : List MRow) (conv_ugm3_to_ppbv : Option ConvField)
    (convscal : ℚ) (temp press : Option ConvField) (iidxU : List ℕ) :
    Except PyErr (List MRow) :=
  if iidxU.isEmpty then .ok df
  else
    match conv_ugm3_to_ppbv with
    | none =>
      if temp.isSome && press.isSome then .error .nameError
      else .error .assertMetMissing
    | some c =>
      .ok (mapIdxFrom (fun i r =>
        if i ∈ iidxU then
          { r with conc_obs :=
              (qnMul (qnMul r.conc_obs
                (getCell c.cells (argminAbs c.lats r.lat) (argminAbs c.lons r.lon)))
                (some convscal)) }
        else r) 0 df)

/-- The ppmv/ppm branch of to_ppbv (units.py lines 65-68). -/
def ppbvStage2 (df1 : List MRow) (iidxP : List ℕ) : List MRow :=
  mapIdxFrom (fun i r =>
    if i ∈ iidxP then { r with conc_obs := qnMul r.conc_obs (some PPM2PPB) }
    else r) 0 df1

/-- Embeds `to_ppbv` (units.py lines 32-69) with the column-name arguments
fixed to their defaults (`colname='conc_obs'`, `unitcol='unit'`,
`loncol='lon'`, `latcol='lat'`), which every call site uses.  `idxOpt`
models the `idx` argument (None selects all rows).  Rows of the selection
dispatch on their unit string: `ugm-3` rows get the gridded factor,
`ppmv`/`ppm` rows are multiplied by PPM2PPB, and all other rows pass
through unchanged. -/
def to_ppbv (df : List MRow) (conv_ugm3_to_ppbv : Option ConvField)
    (convscal : ℚ) (temp press : Option ConvField) (mw : ℚ)
    (idxOpt : Option (List ℕ)) : Except PyErr (List MRow) :=
  let idx := idxOpt.getD (List.range df.length)
  match ppbvStage1 df conv_ugm3_to_ppbv convscal temp press (ppbvSelU df idx) with
  | .error e => .error e
  | .ok df1 => .ok (ppbvStage2 df1 (ppbvSelP df idx))

/-! ## read_cf.py: datasets, time selection, variable extraction -/

/-- Hours to nanoseconds (read_cf.py line 28: 60*60*10**9). -/
def HR_TO_NS : ℤ := 60 * 60 * 1000000000

/-- Per-variable entry of a collection config (`name_on_file`, optional
`scal`). -/
structure VarInfo where
  name_on_file : Option String
  scal : Option ℚ
deriving DecidableEq, Repr

/-- A collection config: file template, variables, optional averaging
window (`average_offset_before`/`average_offset_after`, in hours). -/
structure Collection where
  template : Option String
  vars : Option (List (String × VarInfo))
  average_offset_before : Option ℤ
  average_offset_after : Option ℤ
deriving DecidableEq, Repr

/-- An opened model dataset: a time axis (ns since epoch, sorted as on
file), lat/lon axes, and per on-file variable name one 2-D grid per time
step.  The vertical (`lev`) axis, squeezed unconditionally by the source,
is not represented. -/
structure Dataset where
  times : List ℤ
  lats : List ℚ
  lons : List ℚ
  fields : List (String × List Grid2)
deriving DecidableEq, Repr

/-- A dataset reduced to a single time step. -/
structure Dataset2D where
  lats : List ℚ
  lons : List ℚ
  fields : List (String × Grid2)
deriving DecidableEq, Repr

/-- skipna mean of a list of cells (the default of xarray `.mean`). -/
def cellMean (cs : List QN) : QN :=
  let vs := cs.filterMap id
  if vs.isEmpty then none else some (vs.sum / vs.length)

/-- Indices of the time steps inside the inclusive label slice [lo, hi]
(`.sel(time=slice(lo, hi))` on a sorted time axis). -/
def sliceIdx (times : List ℤ) (lo hi : ℤ) : List ℕ :=
  (List.range times.length).filter (fun i =>
    match times[i]? with
    | some t => decide (lo ≤ t) && decide (t ≤ hi)
    | none => false)

/-- Pointwise time-mean of the selected steps of one variable, over the
lat x lon shape of the dataset axes. -/
def meanGridsAt (nlat nlon : ℕ) (gs : List Grid2) (sel : List ℕ) : Grid2 :=
  (List.range nlat).map (fun i => (List.range nlon).map (fun j =>
    cellMean (sel.filterMap (fun k => (gs[k]?).map (fun g => getCell g i j)))))

/-- Index of the time step selected by `.sel(time=ts, method='nearest')`.
pandas tie-breaking at an exact midpoint is an implementation detail;
first occurrence is used, as with argmin. -/
def nearestTimeIdx (times : List ℤ) (t : ℤ) : ℕ :=
  argminAbs (times.map (fun (z : ℤ) => (z : ℚ))) (t : ℚ)

/-- Embeds the time reduction of read_cf_data_2d (read_cf.py lines
120-133): with more than one time step, average over the window when both
offsets are configured, otherwise select the nearest step; with exactly
one step, squeeze it; an empty time axis cannot be squeezed. -/
def timeReduce (icol : Collection) (idate : ℤ) (ds : Dataset) :
    Except PyErr Dataset2D :=
  if 1 < ds.times.length then
    match icol.average_offset_before, icol.average_offset_after with
    | some b, some a =>
      let sel := sliceIdx ds.times (idate - b * HR_TO_NS) (idate + a * HR_TO_NS)
      .ok ⟨ds.lats, ds.lons,
        ds.fields.map (fun p =>
          (p.1, meanGridsAt ds.lats.length ds.lons.length p.2 sel))⟩
    | _, _ =>
      let k := nearestTimeIdx ds.times idate
      .ok ⟨ds.lats, ds.lons, ds.fields.map (fun p => (p.1, (p.2[k]?).getD []))⟩
  else
    if ds.times.length = 1 then
      .ok ⟨ds.lats, ds.lons, ds.fields.map (fun p => (p.1, (p.2[0]?).getD []))⟩
    else .error .squeezeError

/-- Embeds `_get_2d_array` (read_cf.py lines 150-158): assert on
`name_on_file`, then the on-file variable scaled by `scal` (default 1.0);
a missing dataset variable is a KeyError. -/
def get_2d_array (ds2 : Dataset2D) (varinfo : VarInfo) (varname : String) :
    Except PyErr Grid2 :=
  match varinfo.name_on_file with
  | none => .error (.assertNameOnFile varname)
  | some var =>
    match lookupStr ds2.fields var with
    | none => .error (.keyError var)
    | some arr => .ok (gridScale arr (varinfo.scal.getD 1))

/-- Python dict assignment `dat[v] = arr`. -/
def setField (fs : List (String × Grid2)) (k : String) (g : Grid2) :
    List (String × Grid2) :=
  if fs.any (fun p => p.1 == k) then
    fs.map (fun p => if p.1 == k then (k, g) else p)
  else fs ++ [(k, g)]

/-- The per-collection variable loop of read_cf_data_2d (lines 142-144). -/
def readVars (ds2 : Dataset2D) (ivars : List (String × VarInfo)) (dat : CFData) :
    Except PyErr CFData :=
  match ivars with
  | [] => .ok dat
  | (v, vi) :: rest =>
    match get_2d_array ds2 vi v with
    | .error e => .error e
    | .ok g => readVars ds2 rest { dat with fields := setField dat.fields v g }

/-- The file-opening oracle: maps the collection template and the request
timestamp to a parsed dataset or a read error.  It stands for
`xr.open_dataset(parse_date(template, date))` (and the open_mfdataset glob
variant); `parse_date` is a pure strftime substitution folded into the
key. -/
abbrev OpenOracle := String → ℤ → Except Unit Dataset

/-- The collection loop of read_cf_data_2d (read_cf.py lines 96-147):
skip a collection missing `template` or `vars` (warning, non-fatal); on an
open failure return rc = -1 with the data read so far; otherwise reduce
the time axis, record the coordinate axes on first sight, and read every
configured variable. -/
def read_cf_go (idate : ℤ) (fopen : OpenOracle) :
    List (String × Collection) → CFData → Except PyErr (ℤ × CFData)
  | [], dat => .ok (0, dat)
  | (_, icol) :: rest, dat =>
    match icol.template with
    | none => read_cf_go idate fopen rest dat
    | some tmpl =>
      match icol.vars with
      | none => read_cf_go idate fopen rest dat
      | some ivars =>
        match fopen tmpl idate with
        | .error _ => .ok (-1, dat)
        | .ok ds =>
          match timeReduce icol idate ds with
          | .error e => .error e
          | .ok ds2 =>
            let dat1 : CFData :=
              { dat with lons := some (dat.lons.getD ds2.lons),
                         lats := some (dat.lats.getD ds2.lats) }
            match readVars ds2 ivars dat1 with
            | .error e => .error e
            | .ok dat2 => read_cf_go idate fopen rest dat2

/-- Embeds `read_cf_data_2d` (read_cf.py lines 30-147): returns the status
code and the dictionary of 2-D fields. -/
def read_cf_data_2d (idate : ℤ) (config : List (String × Collection))
    (fopen : OpenOracle) : Except PyErr (ℤ × CFData) :=
  read_cf_go idate fopen config ⟨none, none, []⟩

/-- Example collection for the averaging-window scenario of C6:
offsets 12/12 hours. -/
def exWindowCol : Collection :=
  { template := some "tmpl", vars := some [("var1", ⟨some "v", none⟩)],
    average_offset_before := some 12, average_offset_after := some 12 }

/-- Example dataset for the averaging-window scenario of C6: an hourly
24-step series of constant value 5.0 on a 1 x 1 grid. -/
def exConstDs : Dataset :=
  { times := (List.range 24).map (fun k => (k : ℤ) * HR_TO_NS),
    lats := [0], lons := [0],
    fields := [("v", (List.range 24).map (fun _ => [[some 5]]))] }

/-- Example row for the to_ppbv witness: one ppmv observation of value 1. -/
def exPpmvRow : MRow :=
  { time := ⟨2019, 1, 1, 0, 0, 0⟩, location := "A", obstype := "o3",
    unit := "ppmv", lat := 0, lon := 0, value := 1,
    conc_mod := none, conc_obs := some 1, conc_unit := "unknown",
    modExtra := [], season := none }

/-! ## add_cf_to_obs.py: aggregation -/

/-- Componentwise comparison of timestamps (the order of pandas Timestamp
values for valid civil datetimes). -/
def cmpTs (t1 t2 : Timestamp) : Ordering :=
  (compare t1.year t2.year).then ((compare t1.month t2.month).then
    ((compare t1.day t2.day).then ((compare t1.hour t2.hour).then
      ((compare t1.minute t2.minute).then (compare t1.second t2.second)))))

/-- The aggregation key of add_cf_to_obs.py line 79:
(ISO8601, location, obstype, unit). -/
abbrev AggKey := Timestamp × String × String × String

/-- Key extraction for the groupby of add_cf_to_obs.py line 79. -/
def aggKey (r : ObsRow) : AggKey := (r.time, r.location, r.obstype, r.unit)

/-- Lexicographic comparison of aggregation keys (the sort order applied
by pandas groupby with its default sort=True). -/
def cmpKey (k1 k2 : AggKey) : Ordering :=
  (cmpTs k1.1 k2.1).then ((compare k1.2.1 k2.2.1).then
    ((compare k1.2.2.1 k2.2.2.1).then (compare k1.2.2.2 k2.2.2.2)))

/-- Non-strict key order used to sort the group keys. -/
def keyLE (k1 k2 : AggKey) : Prop := cmpKey k1 k2 ≠ .gt

instance keyLE.decRel : DecidableRel keyLE := fun a b =>
  inferInstanceAs (Decidable (cmpKey a b ≠ .gt))

/-- Truncation of one row's timestamp to the hour
(add_cf_to_obs.py line 72). -/
def truncRow (r : ObsRow) : ObsRow := { r with time := truncHour r.time }

/-- Arithmetic mean of a numeric column over one group (pandas mean; the
empty case, NaN in pandas, is unreachable because every group has at
least one member). -/
def qmean (xs : List ℚ) : ℚ := if xs.isEmpty then 0 else xs.sum / xs.length

/-- The rows of one aggregation group. -/
def groupRows (rows : List ObsRow) (k : AggKey) : List ObsRow :=
  rows.filter (fun r => decide (aggKey r = k))

/-- The single output row of one aggregation group: the key columns plus
the mean of every numeric column (value, lat, lon). -/
def mkAggRow (rows : List ObsRow) (k : AggKey) : ObsRow :=
  let grp := groupRows rows k
  { time := k.1, location := k.2.1, obstype := k.2.2.1, unit := k.2.2.2,
    lat := qmean (grp.map (fun r => r.lat)),
    lon := qmean (grp.map (fun r => r.lon)),
    value := qmean (grp.map (fun r => r.value)) }

/-- Embeds `df_in.groupby(['ISO8601','location','obstype','unit']).mean()
.reset_index()` (add_cf_to_obs.py line 79): one row per distinct key, keys
in ascending sorted order, numeric columns averaged. -/
def groupbyMean (rows : List ObsRow) : List ObsRow :=
  (((rows.map aggKey).dedup).insertionSort keyLE).map (mkAggRow rows)

/-- The timestamp-truncation plus aggregation stage of add_cf
(add_cf_to_obs.py lines 72-79). -/
def addCfAggregate (rows : List ObsRow) : List ObsRow :=
  groupbyMean (rows.map truncRow)

/-- The column initialization of add_cf_to_obs.py lines 82-84: NaN model
and observation columns, unit column 'unknown'. -/
def initMRow (r : ObsRow) : MRow :=
  { time := r.time, location := r.location, obstype := r.obstype,
    unit := r.unit, lat := r.lat, lon := r.lon, value := r.value,
    conc_mod := none, conc_obs := none, conc_unit := "unknown",
    modExtra := [], season := none }

/-! ## add_cf_to_obs.py: per-mapping-entry update -/

/-- One entry of the `mapping` configuration: target obstype, source
variables (a string or a list in YAML), output unit, molecular weight,
model-column suffix. -/
structure VarConfig where
  obstype : Option String
  cfvars : Option (Sum String (List String))
  unit : Option String
  mw : Option ℚ
  modcol_suffix : Option String
deriving DecidableEq, Repr

/-- The row selection of add_cf_to_obs.py line 138:
rows with the entry's obstype at the current timestamp. -/
def entryIdx (df : List MRow) (idate : Timestamp) (otype : String) : List ℕ :=
  (List.range df.length).filter (fun i =>
    match df[i]? with
    | some r => decide (r.time = idate) && (r.obstype == otype)
    | none => false)

/-- One source-variable accumulation step (add_cf_to_obs.py lines
160-166): NaN accumulator cells are zeroed, then the nearest model cell is
added. -/
def accumVar (df : List MRow) (idx : List ℕ) (imodcol : String)
    (lons lats : List ℚ) (g : Grid2) : List MRow :=
  mapIdxFrom (fun i r =>
    if i ∈ idx then
      setModCol r imodcol
        (qnAdd (match getModCol r imodcol with
          | none => some 0
          | some v => some v)
          (getCell g (argminAbs lats r.lat) (argminAbs lons r.lon)))
    else r) 0 df

/-- The loop over the entry's source variables; a variable absent from the
read data dictionary is a KeyError (line 166, `dat[cfvar]`). -/
def accumCfvars (dat : CFData) (idx : List ℕ) (imodcol : String)
    (lons lats : List ℚ) : List String → List MRow → Except PyErr (List MRow)
  | [], df => .ok df
  | cfvar :: rest, df =>
    match lookupStr dat.fields cfvar with
    | none => .error (.keyError cfvar)
    | some g =>
      accumCfvars dat idx imodcol lons lats rest (accumVar df idx imodcol lons lats g)

/-- The body of the per-mapping-entry loop of `_add_cf_data_to_df`
(add_cf_to_obs.py lines 133-173), for one entry `(ivar, vc)`.  Returns the
diagnostics it prints together with the updated frame; assert failures are
errors.  An entry without `obstype` is skipped with a diagnostic (line
136); an entry with no matching rows is skipped silently (line 140); an
entry without `cfvars` is skipped with a diagnostic gated on the verbosity
(line 154) after the observation column was already copied; a `ppbv`
entry asserts on `mw` (line 171) and on the precomputed conversion factor
(line 172) before calling to_ppbv. -/
def processEntry (df : List MRow) (idate : Timestamp) (dat : CFData)
    (lons lats : List ℚ) (conv : Option ConvField) (verbose : ℤ)
    (ivar : String) (vc : VarConfig) : Except PyErr (List String × List MRow) :=
  match vc.obstype with
  | none =>
    .ok (["Warning: no obstype defined for " ++ ivar ++ " - skip variable"], df)
  | some otype =>
    let idx := entryIdx df idate otype
    if idx.isEmpty then .ok ([], df)
    else
      let df1 := mapIdxFrom (fun i r =>
        if i ∈ idx then { r with conc_obs := some r.value } else r) 0 df
      let imodcol := modcolName ++ (vc.modcol_suffix.getD "")
      match vc.cfvars with
      | none =>
        .ok ((if 0 < verbose then
          ["Warning: no CF variables defined for " ++ ivar
            ++ " - no CF data will be matched to observations"]
          else []), df1)
      | some cfv =>
        let cfvars := match cfv with
          | .inl s => [s]
          | .inr l => l
        match accumCfvars dat idx imodcol lons lats cfvars df1 with
        | .error e => .error e
        | .ok df2 =>
          let unit := (vc.unit).getD "unknown"
          let df3 := mapIdxFrom (fun i r =>
            if i ∈ idx then { r with conc_unit := unit } else r) 0 df2
          if unit == "ppbv" then
            match vc.mw with
            | none => .error (.assertMw ivar)
            | some mw =>
              match conv with
              | none => .error .assertConvMissing
              | some c =>
                match to_ppbv df3 (some c) (1 / mw) none none 1 (some idx) with
                | .error e => .error e
                | .ok df4 => .ok ([], df4)
          else .ok ([], df3)

/-- The loop over all mapping entries (add_cf_to_obs.py line 133),
accumulating diagnostics. -/
def processEntries (idate : Timestamp) (dat : CFData) (lons lats : List ℚ)
    (conv : Option ConvField) (verbose : ℤ) :
    List (String × VarConfig) → List MRow → Except PyErr (List String × List MRow)
  | [], df => .ok ([], df)
  | (ivar, vc) :: rest, df =>
    match processEntry df idate dat lons lats conv verbose ivar vc with
    | .error e => .error e
    | .ok (ws, df1) =>
      match processEntries idate dat lons lats conv verbose rest df1 with
      | .error e => .error e
      | .ok (ws2, df2) => .ok (ws ++ ws2, df2)

/-- Embeds `_add_cf_data_to_df` (add_cf_to_obs.py lines 115-174): read the
CF data for the timestamp (a failed read returns rc = -1 and None), take
the coordinate axes (a KeyError when nothing was read), precompute the
ugm-3-to-ppbv conversion factor with the misaligned positional call of
line 130, then update the frame entry by entry.  The source passes a stray
`verbose` keyword to read_cf_data_2d at line 123 (the snapshot signature
has `suppress_messages` instead); the argument is diagnostic-only and is
dropped here. -/
def add_cf_data_to_df (df : List MRow) (idate : Timestamp)
    (cf_config : List (String × Collection))
    (map_config : List (String × VarConfig)) (verbose : ℤ)
    (fopen : OpenOracle) : Except PyErr (ℤ × Option (List MRow)) :=
  match read_cf_data_2d (nsOf idate) cf_config fopen with
  | .error e => .error e
  | .ok (rc, dat) =>
    if rc ≠ 0 then .ok (rc, none)
    else
      match dat.lons, dat.lats with
      | some lons, some lats =>
        match conv_at_line130 dat with
        | some (.error e) => .error e
        | some (.ok c) =>
          match processEntries idate dat lons lats (some c) verbose map_config df with
          | .error e => .error e
          | .ok (_, df2) => .ok (0, some df2)
        | none =>
          match processEntries idate dat lons lats none verbose map_config df with
          | .error e => .error e
          | .ok (_, df2) => .ok (0, some df2)
      | _, _ => .error (.keyError "lons")

/-! ## add_cf_to_obs.py: top-level add_cf -/

/-- `df['ISO8601'].unique()`: distinct values in first-occurrence order. -/
def uniqueKeepFirst {α : Type} [DecidableEq α] (l : List α) : List α :=
  l.foldl (fun acc x => if x ∈ acc then acc else acc ++ [x]) []

/-- The per-unique-timestamp loop of add_cf (add_cf_to_obs.py lines
86-92): on a non-zero status from any hour, break and return None. -/
def add_cf_loop (cf_config : List (String × Collection))
    (map_config : List (String × VarConfig)) (verbose : ℤ)
    (fopen : OpenOracle) :
    List Timestamp → List MRow → Except PyErr (Option (List MRow))
  | [], df => .ok (some df)
  | d :: rest, df =>
    match add_cf_data_to_df df d cf_config map_config verbose fopen with
    | .error e => .error e
    | .ok (rc, odf) =>
      if rc ≠ 0 then .ok none
      else add_cf_loop cf_config map_config verbose fopen rest (odf.getD df)

/-- Embeds `set_season` (seasons.py lines 22-32): a season-number column
from each row's month. -/
def set_season (df : List MRow) : List MRow :=
  df.map (fun r => { r with season := some (set_season_number r.time.month) })

/-- Embeds `add_cf` (add_cf_to_obs.py lines 61-112): truncate timestamps
to the hour, aggregate by (hour, location, obstype, unit) with mean,
initialize the matched columns, loop over the distinct timestamps (all or
nothing on read failure), then derive the season column.  The
configuration pair is passed directly (the YAML loading of `_read_config`
is file I/O); the restoration of groupby-dropped character columns (lines
93-106) and the localtime round trip (lines 75-77, 110-111) concern
columns outside this row model and are carried by no claim. -/
def add_cf (df_in : List ObsRow) (cf_config : List (String × Collection))
    (map_config : List (String × VarConfig)) (verbose : ℤ)
    (fopen : OpenOracle) : Except PyErr (Option (List MRow)) :=
  let df0 := addCfAggregate df_in
  let df1 := df0.map initMRow
  match add_cf_loop cf_config map_config verbose fopen
      (uniqueKeepFirst (df1.map (fun r => r.time))) df1 with
  | .error e => .error e
  | .ok none => .ok none
  | .ok (some df2) => .ok (some (set_season df2))

/-! ## Concrete inputs for the claim evaluations -/

/-- Example timestamp (2019-01-01T00Z). -/
def exIdate : Timestamp := ⟨2019, 1, 1, 0, 0, 0⟩

/-- One o3 observation row in the matched-frame shape. -/
def exO3Row : MRow :=
  { time := exIdate, location := "SiteA", obstype := "o3", unit := "ugm-3",
    lat := 0, lon := 0, value := 40, conc_mod := none, conc_obs := none,
    conc_unit := "unknown", modExtra := [], season := none }

/-- A single-time-step model dataset carrying the met fields (T10M, PS)
and an O3 field on a 1 x 1 grid. -/
def exMetChemDs : Dataset :=
  { times := [0], lats := [0], lons := [0],
    fields := [("T10M", [[[some 280]]]), ("PS", [[[some 100000]]]),
               ("O3", [[[some 30]]])] }

/-- A CF configuration reading t10m and ps from a met collection and o3
from a chem collection. -/
def exCfConfig : List (String × Collection) :=
  [("met",
    { template := some "met_tmpl",
      vars := some [("t10m", ⟨some "T10M", none⟩), ("ps", ⟨some "PS", none⟩)],
      average_offset_before := none, average_offset_after := none }),
   ("chem",
    { template := some "chem_tmpl",
      vars := some [("o3", ⟨some "O3", none⟩)],
      average_offset_before := none, average_offset_after := none })]

/-- A mapping entry requesting ppbv output with a molecular weight. -/
def exMapPpbv : List (String × VarConfig) :=
  [("o3", { obstype := some "o3", cfvars := some (.inr ["o3"]),
            unit := some "ppbv", mw := some 48, modcol_suffix := none })]

/-- A file oracle always returning the example dataset. -/
def exOracle : OpenOracle := fun _ _ => .ok exMetChemDs

/-- An input observation row with sub-hour timing (truncates to exIdate). -/
def exObsRow : ObsRow :=
  { time := ⟨2019, 1, 1, 0, 15, 30⟩, location := "SiteA", obstype := "o3",
    unit := "ppbv", lat := 0, lon := 0, value := 40 }

/-- A file oracle whose every open fails. -/
def exFailOracle : OpenOracle := fun _ _ => .error ()

/-- Two raw rows in the same (hour, location, obstype, unit) group, at
minutes 15 and 45, with values 10 and 20. -/
def exDupRows : List ObsRow :=
  [{ time := ⟨2019, 1, 1, 12, 15, 0⟩, location := "A", obstype := "o3",
     unit := "ppbv", lat := 1, lon := 2, value := 10 },
   { time := ⟨2019, 1, 1, 12, 45, 0⟩, location := "A", obstype := "o3",
     unit := "ppbv", lat := 1, lon := 2, value := 20 }]

/-- The aggregation key shared by `exDupRows` after hour truncation. -/
def exDupKey : AggKey := (⟨2019, 1, 1, 12, 0, 0⟩, "A", "o3", "ppbv")

/-! ## statistics.py: compute_metrics_by_location -/

/-- A pandas index label: location values are strings in this pipeline
(canonical station names), while a reset_index() frame carries an integer
RangeIndex.  Mixed-type label sets raise in Python when sorted and are
not modelled; the order totalizes ints before strings. -/
inductive PLabel where
  | str (s : String)
  | int (n : ℤ)
deriving DecidableEq, Repr

/-- Sort order on labels (pandas groupby sorts group keys). -/
def cmpPLabel : PLabel → PLabel → Ordering
  | .int a, .int b => compare a b
  | .str a, .str b => compare a b
  | .int _, .str _ => .lt
  | .str _, .int _ => .gt

/-- Non-strict label order. -/
def plabelLE (a b : PLabel) : Prop := cmpPLabel a b ≠ .gt

instance plabelLE.decRel : DecidableRel plabelLE := fun a b =>
  inferInstanceAs (Decidable (cmpPLabel a b ≠ .gt))

/-- One matched row as consumed by compute_metrics_by_location: location
label, model value, observation value (columns `conc_mod`, `conc_obs`). -/
structure StatRow where
  location : PLabel
  conc_mod : ℚ
  conc_obs : ℚ
deriving DecidableEq, Repr

/-- The output columns of the location-grouped statistics frame that the
claims reference: the location label and the NMB column.  The other
columns (per-group means, RMSE, IOA, R2) are independent of NMB and of
the row retention and are carried by no claim. -/
structure LocStat where
  location : PLabel
  NMB : QN
deriving DecidableEq, Repr

/-- Embeds `compute_metrics_by_location` (statistics.py lines 27-89) for
the default season (no season filter), restricted to the output columns
above.  Groups are the sorted distinct locations; locations with fewer
than `minnobs` observations are dropped from the output (lines 51-54).
The NMB assignment (line 57) assigns the series
`df_sum['bias'] / df_sum[obscol]` — whose index is the integer RangeIndex
produced by reset_index() — to the location-labelled frame `df`; pandas
aligns on index, so a retained location receives the ratio of the i-th
sorted location only when its label is the integer i, and NaN otherwise.
A zero observation sum, inf in numpy, is also modelled as a missing
value; no theorem touches that branch. -/
def compute_metrics_by_location (dat : List StatRow) (minnobs : Option ℕ) :
    List LocStat :=
  let locs := ((dat.map (fun r => r.location)).dedup).insertionSort plabelLE
  let cnt := fun (ℓ : PLabel) =>
    (dat.filter (fun r => decide (r.location = ℓ))).length
  let retained := match minnobs with
    | none => locs
    | some m => locs.filter (fun ℓ => decide (m ≤ cnt ℓ))
  let sumBias := fun (ℓ : PLabel) =>
    ((dat.filter (fun r => decide (r.location = ℓ))).map
      (fun r => r.conc_mod - r.conc_obs)).sum
  let sumObs := fun (ℓ : PLabel) =>
    ((dat.filter (fun r => decide (r.location = ℓ))).map
      (fun r => r.conc_obs)).sum
  retained.map (fun ℓ =>
    { location := ℓ,
      NMB := match ℓ with
        | .int n =>
          if 0 ≤ n then
            match locs[n.toNat]? with
            | some ℓ2 =>
              if sumObs ℓ2 = 0 then none else some (sumBias ℓ2 / sumObs ℓ2)
            | none => none
          else none
        | .str _ => none })

/-- Two matched rows at one string-labelled location, with model values
2 and 4 against observations 1 and 2. -/
def exStatRows : List StatRow :=
  [{ location := .str "A", conc_mod := 2, conc_obs := 1 },
   { location := .str "A", conc_mod := 4, conc_obs := 2 }]

/-! ## table_of_stations.py: update_stations_info -/

/-- One entry of the stations table. -/
structure StRow where
  location : String
  original_station_name : String
  lat : ℚ
  lon : ℚ
  latlon_id : ℚ
  lat_gridded : QN
  lon_gridded : QN
  latlon_id_gridded : QN
  location_gridded : String
deriving DecidableEq, Repr

/-- An observation row as consumed by update_stations_info (the remaining
observation columns pass through the merge unchanged and are carried by
no claim). -/
structure ObsLocRow where
  time : Timestamp
  original_station_name : String
  lat : ℚ
  lon : ℚ
deriving DecidableEq, Repr

/-- An observation row after the station merge of
table_of_stations.py line 86. -/
structure ObsLocMerged where
  time : Timestamp
  original_station_name : String
  lat : ℚ
  lon : ℚ
  latlon_id : ℚ
  location : String
  location_gridded : String
  lon_gridded : QN
  lat_gridded : QN
  latlon_id_gridded : QN
deriving DecidableEq, Repr

/-- The identity formula on NaN-able inputs (table_of_stations.py line
80, applied to possibly-NaN gridded coordinates). -/
def latlon_idQN (lat lon : QN) : QN :=
  qnAdd (qnMul (qnAdd lat (some 90)) (some 10000000)) (qnAdd lon (some 180))

/-- The placeholder entry appended to an empty stations table
(table_of_stations.py lines 44-54). -/
def dummyStation : StRow :=
  { location := "unknown", original_station_name := "unknown",
    lat := -999, lon := -999, latlon_id := -999,
    lat_gridded := some (-999), lon_gridded := some (-999),
    latlon_id_gridded := some (-999), location_gridded := "unknown" }

/-- Python `str(n).zfill(7)`. -/
def zfill7 (n : ℕ) : String :=
  let s := toString n
  String.mk (List.replicate (7 - s.length) '0') ++ s

/-- The canonical station name `'Station' + str(i+nstat).zfill(7)`
(table_of_stations.py line 70). -/
def stationName (n : ℕ) : String := "Station" ++ zfill7 n

/-- Zero-padded fixed-point formatting with two decimals (Python format
spec `0w.2f`), idealized to exact rationals with round half to even. -/
def fmtFixed2 (w : ℕ) (q : ℚ) : String :=
  let neg := q < 0
  let cents := roundHalfEven (|q| * 100)
  let ip := cents / 100
  let fp := cents % 100
  let fps := if fp < 10 then "0" ++ toString fp else toString fp
  let body := toString ip ++ "." ++ fps
  let sign := if neg then "-" else ""
  sign ++ String.mk (List.replicate (w - (sign.length + body.length)) '0') ++ body

/-- The gridded-station name `'Station_{0:07.2f}E_{1:06.2f}N'`
(table_of_stations.py line 75). -/
def location_gridded_name (lon_g lat_g : ℚ) : String :=
  "Station_" ++ fmtFixed2 7 lon_g ++ "E_" ++ fmtFixed2 6 lat_g ++ "N"

/-- Python `min` over the strings of a group (table_of_stations.py line
68, groupby(...).min() on the original_station_name column); the empty
case is unreachable since every group has a member. -/
def minString : List String → String
  | [] => ""
  | s :: rest => rest.foldl (fun a b => if b < a then b else a) s

/-- Python `min` over the rationals of a group. -/
def minQ : List ℚ → ℚ
  | [] => 0
  | x :: rest => rest.foldl (fun a b => if b < a then b else a) x

/-- The lat/lon rounding applied to the observation frame
(table_of_stations.py lines 58-59). -/
def roundObsRow (r : ObsLocRow) : ObsLocRow :=
  { r with lat := round4 r.lat, lon := round4 r.lon }

/-- The identity scalar of a (rounded) observation row (line 60). -/
def obsId (r : ObsLocRow) : ℚ := latlon_id r.lat r.lon

/-- Non-strict order on rationals for the sorted index difference. -/
def qLE (a b : ℚ) : Prop := a ≤ b

instance qLE.decRel : DecidableRel qLE := fun a b =>
  inferInstanceAs (Decidable (a ≤ b))

/-- `df.index.difference(st.index)` (line 64): the sorted distinct
observation identities absent from the stations table. -/
def missingIds (df2 : List ObsLocRow) (stIds : List ℚ) : List ℚ :=
  (((df2.map obsId).filter (fun i => decide (¬ i ∈ stIds))).dedup).insertionSort qLE

/-- One new stations-table entry (table_of_stations.py lines 68-80): the
group minimum of the original names and coordinates, the canonical name
continuing the sequence at nstat, and the nearest cell of the coarse
output grid when one is given (NaN placeholders otherwise). -/
def mkStRow (nstat i : ℕ) (mid : ℚ) (oname : String) (mlat mlon : ℚ)
    (lats lons : Option (List ℚ)) : StRow :=
  match lats, lons with
  | some la, some lo =>
    let lon_g : QN := lo[argminAbs lo mlon]?
    let lat_g : QN := la[argminAbs la mlat]?
    { location := stationName (nstat + i), original_station_name := oname,
      lat := mlat, lon := mlon, latlon_id := mid,
      lat_gridded := lat_g, lon_gridded := lon_g,
      latlon_id_gridded := latlon_idQN lat_g lon_g,
      location_gridded :=
        match lon_g, lat_g with
        | some lg, some tg => location_gridded_name lg tg
        | _, _ => "unknown" }
  | _, _ =>
    { location := stationName (nstat + i), original_station_name := oname,
      lat := mlat, lon := mlon, latlon_id := mid,
      lat_gridded := none, lon_gridded := none,
      latlon_id_gridded := latlon_idQN none none,
      location_gridded := "unknown" }

/-- Sort order of the merged frame (`sort_values(by="ISO8601")`, line 87;
pandas quicksort is not stable, so any order among equal timestamps is
compatible — a stable sort is used here). -/
def mergedLE (a b : ObsLocMerged) : Prop := cmpTs a.time b.time ≠ .gt

instance mergedLE.decRel : DecidableRel mergedLE := fun a b =>
  inferInstanceAs (Decidable (cmpTs a.time b.time ≠ .gt))

/-- The i-th new entry for one missing identity: its group of observation
rows supplies the minimum original name and coordinates
(table_of_stations.py line 68). -/
def mkNewEntry (nstat : ℕ) (df2 : List ObsLocRow) (lats lons : Option (List ℚ))
    (i : ℕ) (mid : ℚ) : StRow :=
  let grp := df2.filter (fun r => decide (obsId r = mid))
  mkStRow nstat i mid
    (minString (grp.map (fun r => r.original_station_name)))
    (minQ (grp.map (fun r => r.lat))) (minQ (grp.map (fun r => r.lon)))
    lats lons

/-- The new entries built from the missing identities
(table_of_stations.py lines 68-80): one per missing id, in ascending id
order, each carrying the group minimum of names and coordinates and the
next sequential canonical name. -/
def newStationRows (nstat : ℕ) (df2 : List ObsLocRow) (missing : List ℚ)
    (lats lons : Option (List ℚ)) : List StRow :=
  mapIdxFrom (mkNewEntry nstat df2 lats lons) 0 missing

/-- The stations-table side of `update_stations_info`: add a placeholder
to an empty table, compute the missing identities, and when any exist,
append their new entries and drop rows tagged 'unknown' (lines 44-84). -/
def updatedStationsTable (df : List ObsLocRow) (st : List StRow)
    (lats lons : Option (List ℚ)) : List StRow :=
  let st0 := if st.isEmpty then [dummyStation] else st
  let nstat := if st.isEmpty then 0 else st.length
  let df2 := df.map roundObsRow
  let missing := missingIds df2 (st0.map (fun e => e.latlon_id))
  if missing.isEmpty then st0
  else
    (st0 ++ newStationRows nstat df2 missing lats lons).filter
      (fun e => decide (¬ e.original_station_name = "unknown"))

/-- Embeds `update_stations_info` (table_of_stations.py lines 29-88):
round the coordinates, compute the identity scalars, update the stations
table with any new identities, then join the station columns back onto
every observation row and sort by timestamp. -/
def update_stations_info (df : List ObsLocRow) (st : List StRow)
    (lats lons : Option (List ℚ)) : List ObsLocMerged × List StRow :=
  let df2 := df.map roundObsRow
  let st1 := updatedStationsTable df st lats lons
  let merged := (df2.map (fun r =>
    (st1.filter (fun e => decide (e.latlon_id = obsId r))).map (fun e =>
      ({ time := r.time, original_station_name := r.original_station_name,
         lat := r.lat, lon := r.lon, latlon_id := obsId r,
         location := e.location, location_gridded := e.location_gridded,
         lon_gridded := e.lon_gridded, lat_gridded := e.lat_gridded,
         latlon_id_gridded := e.latlon_id_gridded } : ObsLocMerged)))).flatten
  (merged.insertionSort mergedLE, st1)

/-- A one-entry stations table whose identity matches the example
observation row below. -/
def exStRow1 : StRow :=
  { location := "Station0000000", original_station_name := "Alpha",
    lat := round4 10, lon := round4 20,
    latlon_id := latlon_id (round4 10) (round4 20),
    lat_gridded := none, lon_gridded := none, latlon_id_gridded := none,
    location_gridded := "unknown" }

/-- One observation row whose rounded identity is already in the table. -/
def exStDf : List ObsLocRow :=
  [{ time := exIdate, original_station_name := "Alpha", lat := 10, lon := 20 }]

end CFObs

namespace CFObs

/-! ## Theorems -/

/-- Positions shift through `mapIdxFrom`. -/
theorem mapIdxFrom_getElem? {α β : Type} (f : ℕ → α → β) (j : ℕ)
    (l : List α) (i : ℕ) :
    (mapIdxFrom f j l)[i]? = (l[i]?).map (f (j + i)) := by
  induction l generalizing j i with
  | nil => simp [mapIdxFrom]
  | cons a l ih =>
    cases i with
    | zero => simp [mapIdxFrom]
    | succ i =>
      simp only [mapIdxFrom, List.getElem?_cons_succ, ih (j + 1) i]
      have hj : j + 1 + i = j + (i + 1) := by omega
      rw [hj]

theorem mapIdxFrom_length {α β : Type} (f : ℕ → α → β) (j : ℕ) (l : List α) :
    (mapIdxFrom f j l).length = l.length := by
  induction l generalizing j with
  | nil => rfl
  | cons a l ih => simp [mapIdxFrom, ih]

/-- Rewrites the id of a 4-decimal grid point as a single integer numerator
over 10^4. -/
theorem latlon_id_grid (a b : ℤ) :
    latlon_id ((a : ℚ) / 10 ^ 4) ((b : ℚ) / 10 ^ 4)
      = ((a * 10 ^ 7 + b + 9000001800000 : ℤ) : ℚ) / 10 ^ 4 := by
  unfold latlon_id
  push_cast
  ring

/-- C5: the station identity scalar `(lat+90.0)*1.0e7+(lon+180.0)` is
injective over latitudes in [-90, 90] and longitudes in [-180, 180] at
4-decimal precision (coordinates `a/10^4`, `b/10^4`), and strictly
monotonic for the lexicographic order on (lat, lon). -/
theorem latlon_id_injective_monotone
    (a1 b1 a2 b2 : ℤ)
    (ha1l : -900000 ≤ a1) (ha1u : a1 ≤ 900000)
    (hb1l : -1800000 ≤ b1) (hb1u : b1 ≤ 1800000)
    (ha2l : -900000 ≤ a2) (ha2u : a2 ≤ 900000)
    (hb2l : -1800000 ≤ b2) (hb2u : b2 ≤ 1800000) :
    (latlon_id ((a1 : ℚ) / 10 ^ 4) ((b1 : ℚ) / 10 ^ 4)
        = latlon_id ((a2 : ℚ) / 10 ^ 4) ((b2 : ℚ) / 10 ^ 4)
      → a1 = a2 ∧ b1 = b2)
    ∧ ((a1 < a2 ∨ (a1 = a2 ∧ b1 < b2))
      → latlon_id ((a1 : ℚ) / 10 ^ 4) ((b1 : ℚ) / 10 ^ 4)
          < latlon_id ((a2 : ℚ) / 10 ^ 4) ((b2 : ℚ) / 10 ^ 4)) := by
  rw [latlon_id_grid, latlon_id_grid]
  constructor
  · intro h
    field_simp at h
    have h3 : a1 * 10 ^ 7 + b1 = a2 * 10 ^ 7 + b2 := by exact_mod_cast h
    constructor <;> omega
  · intro h
    have h3 : a1 * 10 ^ 7 + b1 + 9000001800000
        < a2 * 10 ^ 7 + b2 + 9000001800000 := by
      rcases h with h | ⟨he, hl⟩ <;> omega
    have h4 : ((a1 * 10 ^ 7 + b1 + 9000001800000 : ℤ) : ℚ)
        < ((a2 * 10 ^ 7 + b2 + 9000001800000 : ℤ) : ℚ) := by exact_mod_cast h3
    exact div_lt_div_of_pos_right h4 (by norm_num)

/-- Witness for `latlon_id_injective_monotone` at the concrete grid points
(0, 0) and (0, 1/10^4). -/
theorem latlon_id_injective_monotone_witness :
    (latlon_id ((0 : ℤ) / 10 ^ 4) ((0 : ℤ) / 10 ^ 4)
        = latlon_id ((0 : ℤ) / 10 ^ 4) ((1 : ℤ) / 10 ^ 4)
      → (0 : ℤ) = 0 ∧ (0 : ℤ) = 1)
    ∧ (((0 : ℤ) < 0 ∨ ((0 : ℤ) = 0 ∧ (0 : ℤ) < 1))
      → latlon_id ((0 : ℤ) / 10 ^ 4) ((0 : ℤ) / 10 ^ 4)
          < latlon_id ((0 : ℤ) / 10 ^ 4) ((1 : ℤ) / 10 ^ 4)) :=
  latlon_id_injective_monotone 0 0 0 1
    (by norm_num) (by norm_num) (by norm_num) (by norm_num)
    (by norm_num) (by norm_num) (by norm_num) (by norm_num)

/-- C10: `set_season` produces exactly the season numbers 1-4 from the
month formula, and `get_season_name` maps 1, 2, 3 to DJF, MAM, JJA but
maps 4 to `none`, because the lookup key is `i % 4` and the table has no
key 0. -/
theorem get_season_name_mod4
    : (∀ m : ℕ, m ≤ 12 → 1 ≤ m →
        (set_season_number m = 1 ∨ set_season_number m = 2
          ∨ set_season_number m = 3 ∨ set_season_number m = 4))
    ∧ set_season_number 1 = 1 ∧ set_season_number 4 = 2
    ∧ set_season_number 7 = 3 ∧ set_season_number 11 = 4
    ∧ get_season_name 1 = some "DJF"
    ∧ get_season_name 2 = some "MAM"
    ∧ get_season_name 3 = some "JJA"
    ∧ get_season_name 4 = none := by decide

/-- Witness for `get_season_name_mod4` at month 12 (a December row gets
season number 1, i.e. DJF). -/
theorem get_season_name_mod4_witness :
    set_season_number 12 = 1 ∨ set_season_number 12 = 2
      ∨ set_season_number 12 = 3 ∨ set_season_number 12 = 4 :=
  get_season_name_mod4.1 12 (by decide) (by decide)

/-- The membership test `1.0 in dat` is false for every CF data dictionary,
so the precomputed conversion factor of `_add_cf_data_to_df` is always
None, whatever fields were read. -/
theorem conv_at_line130_eq_none (dat : CFData) : conv_at_line130 dat = none := by
  unfold conv_at_line130 get_conv_ugm3_to_ppbv
  simp [CFData.hasKey]

/-- C9: `to_ppbv` dispatches on the unit column of each selected row:
a `ppmv`/`ppm` row has its value multiplied by exactly 1000, and a row
whose unit is neither `ugm-3` nor `ppmv`/`ppm` passes through with its
value unchanged. -/
theorem to_ppbv_unit_dispatch (df : List MRow) (conv : Option ConvField)
    (convscal : ℚ) (temp press : Option ConvField) (mw : ℚ)
    (idx : List ℕ) (df2 : List MRow) (i : ℕ) (r : MRow)
    (hok : to_ppbv df conv convscal temp press mw (some idx) = .ok df2)
    (hi : i ∈ idx) (hr : df[i]? = some r) :
    ((r.unit = "ppmv" ∨ r.unit = "ppm") →
      df2[i]? = some { r with conc_obs := qnMul r.conc_obs (some 1000) })
    ∧ ((r.unit ≠ "ugm-3" ∧ r.unit ≠ "ppmv" ∧ r.unit ≠ "ppm") →
      df2[i]? = some r) := by
  have hPPM : PPM2PPB = 1000 := rfl
  unfold to_ppbv at hok
  simp only [Option.getD] at hok
  have stage1Pres : ∀ df1, ¬ i ∈ ppbvSelU df idx →
      ppbvStage1 df conv convscal temp press (ppbvSelU df idx) = .ok df1 →
      df1[i]? = some r := by
    intro df1 hnotU hs
    revert hs
    unfold ppbvStage1
    by_cases hemp : (ppbvSelU df idx).isEmpty
    · simp only [hemp, if_pos]
      intro hs; cases hs; exact hr
    · simp only [hemp, Bool.false_eq_true, if_neg, not_false_iff]
      cases conv with
      | none =>
        by_cases hb : temp.isSome && press.isSome <;> simp [hb]
      | some c =>
        intro hs
        cases hs
        rw [mapIdxFrom_getElem?, hr]
        simp [hnotU]
  constructor
  · intro hunit
    have hnotU : ¬ i ∈ ppbvSelU df idx := by
      simp only [ppbvSelU, List.mem_filter, hr]
      rcases hunit with h | h <;> simp [h]
    have hinP : i ∈ ppbvSelP df idx := by
      simp only [ppbvSelP, List.mem_filter, hr]
      rcases hunit with h | h <;> simp [h, hi]
    revert hok
    cases hs : ppbvStage1 df conv convscal temp press (ppbvSelU df idx) with
    | error e => intro hok; cases hok
    | ok df1 =>
      intro hok
      have hdf2 : df2 = ppbvStage2 df1 (ppbvSelP df idx) := by
        cases hok; rfl
      have h1 : df1[i]? = some r := stage1Pres df1 hnotU hs
      rw [hdf2]
      unfold ppbvStage2
      rw [mapIdxFrom_getElem?, h1]
      simp [hinP, hPPM]
  · intro hunit
    obtain ⟨hu1, hu2, hu3⟩ := hunit
    have hnotU : ¬ i ∈ ppbvSelU df idx := by
      simp only [ppbvSelU, List.mem_filter, hr]
      simp [hu1]
    have hnotP : ¬ i ∈ ppbvSelP df idx := by
      simp only [ppbvSelP, List.mem_filter, hr]
      simp [hu2, hu3]
    revert hok
    cases hs : ppbvStage1 df conv convscal temp press (ppbvSelU df idx) with
    | error e => intro hok; cases hok
    | ok df1 =>
      intro hok
      have hdf2 : df2 = ppbvStage2 df1 (ppbvSelP df idx) := by
        cases hok; rfl
      have h1 : df1[i]? = some r := stage1Pres df1 hnotU hs
      rw [hdf2]
      unfold ppbvStage2
      rw [mapIdxFrom_getElem?, h1]
      simp [hnotP]

/-- Invariant of the argmin scan: the returned index achieves a distance
that is at most the incoming best and at most the distance of every
scanned element. -/
theorem argminAbsGo_spec (x : ℚ) (ys : List ℚ) :
    ∀ (j best : ℕ) (bestd : ℚ),
      ∃ d, d ≤ bestd ∧ (∀ k, k < ys.length → d ≤ |ys.getD k 0 - x|) ∧
        ((argminAbsGo x j best bestd ys = best ∧ d = bestd) ∨
          (∃ k, k < ys.length ∧ argminAbsGo x j best bestd ys = j + k
            ∧ d = |ys.getD k 0 - x|)) := by
  induction ys with
  | nil =>
    intro j best bestd
    refine ⟨bestd, le_refl _, ?_, Or.inl ⟨rfl, rfl⟩⟩
    intro k hk
    simp at hk
  | cons y ys ih =>
    intro j best bestd
    by_cases hlt : |y - x| < bestd
    · obtain ⟨d, hd1, hd2, hd3⟩ := ih (j + 1) j (|y - x|)
      have hgo : argminAbsGo x j best bestd (y :: ys)
          = argminAbsGo x (j + 1) j (|y - x|) ys := by
        simp [argminAbsGo, hlt]
      refine ⟨d, le_of_lt (lt_of_le_of_lt hd1 hlt), ?_, ?_⟩
      · intro k hk
        cases k with
        | zero => simpa using hd1
        | succ k =>
          simp only [List.getD_cons_succ]
          exact hd2 k (by simpa using hk)
      · rcases hd3 with ⟨heq, hdv⟩ | ⟨k, hk, heq, hdv⟩
        · refine Or.inr ⟨0, by simp, ?_, by simpa using hdv⟩
          rw [hgo, heq]
          omega
        · refine Or.inr ⟨k + 1, by simpa using hk, ?_, by simpa using hdv⟩
          rw [hgo, heq]
          omega
    · obtain ⟨d, hd1, hd2, hd3⟩ := ih (j + 1) best bestd
      have hgo : argminAbsGo x j best bestd (y :: ys)
          = argminAbsGo x (j + 1) best bestd ys := by
        simp [argminAbsGo, hlt]
      refine ⟨d, hd1, ?_, ?_⟩
      · intro k hk
        cases k with
        | zero =>
          push_neg at hlt
          simpa using le_trans hd1 hlt
        | succ k =>
          simp only [List.getD_cons_succ]
          exact hd2 k (by simpa using hk)
      · rcases hd3 with ⟨heq, hdv⟩ | ⟨k, hk, heq, hdv⟩
        · exact Or.inl ⟨by rw [hgo, heq], hdv⟩
        · refine Or.inr ⟨k + 1, by simpa using hk, ?_, by simpa using hdv⟩
          rw [hgo, heq]
          omega

/-- The nearest-index search returns an in-range index minimizing the
distance to the target (first occurrence on ties, as with numpy argmin). -/
theorem argminAbs_min (xs : List ℚ) (x : ℚ) (hne : xs ≠ []) :
    argminAbs xs x < xs.length ∧
      ∀ i, i < xs.length →
        |xs.getD (argminAbs xs x) 0 - x| ≤ |xs.getD i 0 - x| := by
  match xs, hne with
  | y :: ys, _ =>
    obtain ⟨d, hd1, hd2, hd3⟩ := argminAbsGo_spec x ys 1 0 (|y - x|)
    have hgo : argminAbs (y :: ys) x = argminAbsGo x 1 0 (|y - x|) ys := rfl
    rcases hd3 with ⟨heq, hdv⟩ | ⟨k, hk, heq, hdv⟩
    · constructor
      · rw [hgo, heq]
        simp
      · intro i hi
        rw [hgo, heq]
        cases i with
        | zero => simp
        | succ i =>
          simp only [List.getD_cons_zero, List.getD_cons_succ]
          have := hd2 i (by simpa using hi)
          rw [hdv] at this
          exact this
    · constructor
      · rw [hgo, heq]
        simp
        omega
      · intro i hi
        have hres : (1 + k) = k + 1 := by omega
        rw [hgo, heq, hres]
        simp only [List.getD_cons_succ]
        rw [← hdv]
        cases i with
        | zero => simpa using hd1
        | succ i =>
          simp only [List.getD_cons_succ]
          exact hd2 i (by simpa using hi)

/-- filterMap id over a constant list of present cells. -/
theorem filterMap_id_replicate (n : ℕ) (q : ℚ) :
    List.filterMap id (List.replicate n (some q)) = List.replicate n q := by
  induction n with
  | zero => rfl
  | succ n ih => simp [List.replicate_succ, ih]

/-- The skipna mean of a constant series is that constant. -/
theorem cellMean_const (q : ℚ) (n : ℕ) (hn : 0 < n) :
    cellMean (List.replicate n (some q)) = some q := by
  unfold cellMean
  rw [filterMap_id_replicate]
  have hne : ¬ ((List.replicate n q).isEmpty = true) := by
    simp [List.isEmpty_iff]
    omega
  rw [if_neg hne, List.sum_replicate, List.length_replicate]
  congr 1
  rw [nsmul_eq_mul]
  exact mul_div_cancel_left₀ q (by exact_mod_cast hn.ne')

/-- getD through a rational cast of an integer list. -/
theorem getD_map_ratCast (l : List ℤ) (i : ℕ) :
    (l.map (fun (z : ℤ) => (z : ℚ))).getD i 0 = ((l.getD i 0 : ℤ) : ℚ) := by
  induction l generalizing i with
  | nil => simp
  | cons a l ih =>
    cases i with
    | zero => simp
    | succ i => simpa using ih i

/-- C6: with more than one time step, the gridded-field reader averages
over [timestamp - offset_before, timestamp + offset_after] whenever the
collection config carries the averaging window, and otherwise selects the
time step nearest to the requested timestamp (an in-range index minimizing
the time distance); averaging an hourly 24-step constant series of value
5.0 with offsets 12/12 returns exactly 5.0. -/
theorem read_cf_time_selection :
    (∀ (icol : Collection) (idate : ℤ) (ds : Dataset) (b a : ℤ),
        1 < ds.times.length →
        icol.average_offset_before = some b →
        icol.average_offset_after = some a →
        timeReduce icol idate ds = .ok ⟨ds.lats, ds.lons,
          ds.fields.map (fun p => (p.1,
            meanGridsAt ds.lats.length ds.lons.length p.2
              (sliceIdx ds.times (idate - b * HR_TO_NS) (idate + a * HR_TO_NS))))⟩)
    ∧ (∀ (icol : Collection) (idate : ℤ) (ds : Dataset),
        1 < ds.times.length →
        (icol.average_offset_before = none ∨ icol.average_offset_after = none) →
        timeReduce icol idate ds = .ok ⟨ds.lats, ds.lons,
          ds.fields.map (fun p =>
            (p.1, (p.2[nearestTimeIdx ds.times idate]?).getD []))⟩)
    ∧ (∀ (ds : Dataset) (idate : ℤ), ds.times ≠ [] →
        nearestTimeIdx ds.times idate < ds.times.length ∧
        ∀ k, k < ds.times.length →
          |((ds.times.getD (nearestTimeIdx ds.times idate) 0 : ℤ) : ℚ) - (idate : ℚ)|
            ≤ |((ds.times.getD k 0 : ℤ) : ℚ) - (idate : ℚ)|)
    ∧ timeReduce exWindowCol (12 * HR_TO_NS) exConstDs
        = .ok ⟨[0], [0], [("v", [[some 5]])]⟩ := by
  have hwin : ∀ (icol : Collection) (idate : ℤ) (ds : Dataset) (b a : ℤ),
      1 < ds.times.length →
      icol.average_offset_before = some b →
      icol.average_offset_after = some a →
      timeReduce icol idate ds = .ok ⟨ds.lats, ds.lons,
        ds.fields.map (fun p => (p.1,
          meanGridsAt ds.lats.length ds.lons.length p.2
            (sliceIdx ds.times (idate - b * HR_TO_NS) (idate + a * HR_TO_NS))))⟩ := by
    intro icol idate ds b a h1 hb ha
    simp [timeReduce, h1, hb, ha]
  refine ⟨hwin, ?_, ?_, ?_⟩
  · intro icol idate ds h1 hopt
    rcases hopt with h | h
    · simp [timeReduce, h1, h]
    · cases hb2 : icol.average_offset_before <;> simp [timeReduce, h1, h, hb2]
  · intro ds idate hne
    have hne2 : ds.times.map (fun (z : ℤ) => (z : ℚ)) ≠ [] := by
      intro hmap
      have hlen : ds.times.length = 0 := by
        simpa using congrArg List.length hmap
      exact hne (List.eq_nil_of_length_eq_zero hlen)
    obtain ⟨hlt, hmin⟩ :=
      argminAbs_min (ds.times.map (fun (z : ℤ) => (z : ℚ))) (idate : ℚ) hne2
    rw [List.length_map] at hlt
    have hidx : nearestTimeIdx ds.times idate
        = argminAbs (ds.times.map (fun (z : ℤ) => (z : ℚ))) (idate : ℚ) := rfl
    refine ⟨by rw [hidx]; exact hlt, ?_⟩
    intro k hk
    have h2 := hmin k (by rw [List.length_map]; exact hk)
    rw [getD_map_ratCast, getD_map_ratCast] at h2
    rw [hidx]
    exact h2
  · rw [hwin exWindowCol (12 * HR_TO_NS) exConstDs 12 12 (by decide) rfl rfl]
    have hsel : sliceIdx exConstDs.times (12 * HR_TO_NS - 12 * HR_TO_NS)
        (12 * HR_TO_NS + 12 * HR_TO_NS) = List.range 24 := by decide
    rw [hsel]
    have hrep : (List.range 24).filterMap
        (fun k => (((List.range 24).map (fun _ => ([[some (5 : ℚ)]] : Grid2)))[k]?).map
          (fun g => getCell g 0 0)) = List.replicate 24 (some (5 : ℚ)) := by decide
    have hr1 : List.range 1 = [0] := by decide
    have hm : meanGridsAt 1 1 ((List.range 24).map (fun _ => ([[some (5 : ℚ)]] : Grid2)))
        (List.range 24) = [[some 5]] := by
      unfold meanGridsAt
      rw [hr1]
      simp only [List.map_cons, List.map_nil]
      rw [hrep, cellMean_const 5 24 (by norm_num)]
    simp only [exConstDs, List.map_cons, List.map_nil, List.length_cons,
      List.length_nil, Nat.zero_add]
    rw [hm]

/-- Witness for `read_cf_time_selection`, applying the window branch to
the concrete 24-step constant dataset. -/
theorem read_cf_time_selection_witness :
    timeReduce exWindowCol (12 * HR_TO_NS) exConstDs
      = .ok ⟨exConstDs.lats, exConstDs.lons,
          exConstDs.fields.map (fun p => (p.1,
            meanGridsAt exConstDs.lats.length exConstDs.lons.length p.2
              (sliceIdx exConstDs.times (12 * HR_TO_NS - 12 * HR_TO_NS)
                (12 * HR_TO_NS + 12 * HR_TO_NS))))⟩ :=
  read_cf_time_selection.1 exWindowCol (12 * HR_TO_NS) exConstDs 12 12
    (by decide) rfl rfl

/-- C1: the ppbv conversion step of the matching call halts even when the
molecular weight and the met fields (t10m, ps) are all present: the
misaligned positional call `get_conv_ugm3_to_ppbv(dat,'t10m','ps',1.0)`
binds the float 1.0 to `pressure_name`, so the conversion factor is
always None (first conjunct) and the assert at add_cf_to_obs.py line 172
fires on a fully configured input (third conjunct), contradicting the
claim (and the module docstring) that providing ps and t10m makes the
ugm-3-to-ppbv conversion work. -/
theorem ppbv_assert_always_fails :
    (∀ dat : CFData, conv_at_line130 dat = none)
    ∧ (∃ dat : CFData,
        read_cf_data_2d (nsOf exIdate) exCfConfig exOracle = .ok (0, dat)
          ∧ dat.hasKey (.str "t10m") = true ∧ dat.hasKey (.str "ps") = true)
    ∧ add_cf_data_to_df [exO3Row] exIdate exCfConfig exMapPpbv 1 exOracle
        = .error .assertConvMissing := by
  refine ⟨conv_at_line130_eq_none, ⟨_, rfl, ?_, ?_⟩, ?_⟩
  · decide
  · decide
  · decide

/-- A per-timestamp step that reports status 0 implies the gridded read
for that timestamp succeeded with status 0. -/
theorem add_cf_data_to_df_ok_zero (df : List MRow) (idate : Timestamp)
    (cf_config : List (String × Collection))
    (map_config : List (String × VarConfig)) (verbose : ℤ)
    (fopen : OpenOracle) (odf : Option (List MRow))
    (h : add_cf_data_to_df df idate cf_config map_config verbose fopen
      = .ok (0, odf)) :
    ∃ dat, read_cf_data_2d (nsOf idate) cf_config fopen = .ok (0, dat) := by
  revert h
  unfold add_cf_data_to_df
  cases hr : read_cf_data_2d (nsOf idate) cf_config fopen with
  | error e => intro h; cases h
  | ok p =>
    obtain ⟨rc, dat⟩ := p
    by_cases hrc : rc = 0
    · intro _
      subst hrc
      exact ⟨dat, rfl⟩
    · dsimp only
      rw [if_pos hrc]
      intro h
      injection h with h1
      injection h1 with h2 h3
      exact absurd h2 hrc

/-- The per-timestamp loop produces no table when any of its timestamps
has a failing read. -/
theorem add_cf_loop_fail (cf_config : List (String × Collection))
    (map_config : List (String × VarConfig)) (verbose : ℤ)
    (fopen : OpenOracle) :
    ∀ (dates : List Timestamp) (df : List MRow),
      (∃ d, d ∈ dates
        ∧ ∀ dat, read_cf_data_2d (nsOf d) cf_config fopen ≠ .ok (0, dat)) →
      ∀ t, add_cf_loop cf_config map_config verbose fopen dates df
        ≠ .ok (some t) := by
  intro dates
  induction dates with
  | nil =>
    intro df h t hok
    obtain ⟨d, hd, _⟩ := h
    cases hd
  | cons d0 rest ih =>
    intro df h t hok
    simp only [add_cf_loop] at hok
    revert hok
    cases hstep : add_cf_data_to_df df d0 cf_config map_config verbose fopen with
    | error e => intro hok; cases hok
    | ok p =>
      obtain ⟨rc, odf⟩ := p
      dsimp only
      by_cases hrc : rc = 0
      · rw [if_neg (by simpa using hrc)]
        intro hok
        obtain ⟨d, hd, hfail⟩ := h
        rcases List.mem_cons.mp hd with rfl | hd2
        · obtain ⟨dat, hread⟩ := add_cf_data_to_df_ok_zero df d cf_config
            map_config verbose fopen odf (by rw [hstep, hrc])
          exact hfail dat hread
        · exact ih (odf.getD df) ⟨d, hd2, hfail⟩ t hok
      · rw [if_pos hrc]
        intro hok
        injection hok with h1
        cases h1

/-- C3: if the gridded-field read fails for any single hour of the
timestamp loop, the whole add_cf call produces no augmented table at all
(no partial output for the hours already read). -/
theorem add_cf_abort_on_read_failure (df_in : List ObsRow)
    (cf_config : List (String × Collection))
    (map_config : List (String × VarConfig)) (verbose : ℤ)
    (fopen : OpenOracle)
    (hfail : ∃ d, d ∈ uniqueKeepFirst
        (((addCfAggregate df_in).map initMRow).map (fun r => r.time))
      ∧ ∀ dat, read_cf_data_2d (nsOf d) cf_config fopen ≠ .ok (0, dat)) :
    ∀ t, add_cf df_in cf_config map_config verbose fopen ≠ .ok (some t) := by
  intro t hok
  unfold add_cf at hok
  dsimp only at hok
  cases hloop : add_cf_loop cf_config map_config verbose fopen
      (uniqueKeepFirst (((addCfAggregate df_in).map initMRow).map (fun r => r.time)))
      ((addCfAggregate df_in).map initMRow) with
  | error e =>
    rw [hloop] at hok
    simp at hok
  | ok o =>
    cases o with
    | none =>
      rw [hloop] at hok
      simp at hok
    | some df2 =>
      exact absurd hloop (add_cf_loop_fail cf_config map_config verbose fopen
        _ _ hfail df2)

/-- Witness for `add_cf_abort_on_read_failure` at a concrete one-row
input and an always-failing file oracle. -/
theorem add_cf_abort_on_read_failure_witness :
    add_cf [exObsRow] exCfConfig exMapPpbv 1 exFailOracle ≠ .ok (some []) := by
  refine add_cf_abort_on_read_failure _ exCfConfig exMapPpbv 1 _ ⟨exIdate, ?_, ?_⟩ []
  · decide
  · intro dat hdat
    have hread : read_cf_data_2d (nsOf exIdate) exCfConfig exFailOracle
        = .ok (-1, ⟨none, none, []⟩) := by decide
    rw [hread] at hdat
    injection hdat with h1
    injection h1 with h2 h3
    exact absurd h2 (by decide)

/-- qmean of a nonempty column is sum over count. -/
theorem qmean_sum_div (xs : List ℚ) (h : ¬ (xs.isEmpty = true)) :
    qmean xs = xs.sum / xs.length := by
  unfold qmean
  rw [if_neg h]

/-- Filtering a duplicate-free list for one of its members gives exactly
that singleton. -/
theorem filter_eq_singleton_of_nodup {α : Type} [DecidableEq α] :
    ∀ (l : List α) (k : α), l.Nodup → k ∈ l →
      l.filter (fun x => decide (x = k)) = [k] := by
  intro l
  induction l with
  | nil => intro k _ hk; cases hk
  | cons a l ih =>
    intro k hnd hk
    rw [List.nodup_cons] at hnd
    rcases List.mem_cons.mp hk with heq | hk2
    · subst heq
      rw [List.filter_cons, if_pos (by simp)]
      have hnil : l.filter (fun x => decide (x = k)) = [] := by
        rw [List.filter_eq_nil_iff]
        intro x hx
        simp only [decide_eq_true_eq]
        intro he
        exact hnd.1 (he ▸ hx)
      rw [hnil]
    · have hak : ¬ (a = k) := fun he => hnd.1 (he ▸ hk2)
      rw [List.filter_cons, if_neg (by simpa using hak)]
      exact ih k hnd.2 hk2

/-- C7: add_cf first truncates every observation timestamp to the hour and
then replaces all rows sharing one (hour, location, obstype, unit) key by
a single row whose numeric columns are the arithmetic mean of the group
(sum over count, never the bare sum). -/
theorem add_cf_hourly_mean_aggregation (rows : List ObsRow) (k : AggKey)
    (hk : k ∈ (rows.map truncRow).map aggKey) :
    ∃ r, (addCfAggregate rows).filter (fun x => decide (aggKey x = k)) = [r]
      ∧ r.time.minute = 0 ∧ r.time.second = 0
      ∧ r.value
          = (((rows.map truncRow).filter (fun x => decide (aggKey x = k))).map
              (fun x => x.value)).sum
            / (((rows.map truncRow).filter (fun x => decide (aggKey x = k))).length)
      ∧ r.lat
          = (((rows.map truncRow).filter (fun x => decide (aggKey x = k))).map
              (fun x => x.lat)).sum
            / (((rows.map truncRow).filter (fun x => decide (aggKey x = k))).length)
      ∧ r.lon
          = (((rows.map truncRow).filter (fun x => decide (aggKey x = k))).map
              (fun x => x.lon)).sum
            / (((rows.map truncRow).filter (fun x => decide (aggKey x = k))).length) := by
  obtain ⟨r0, hr0mem, hr0key⟩ := List.mem_map.mp hk
  have hnd : (((rows.map truncRow).map aggKey).dedup.insertionSort keyLE).Nodup :=
    ((List.perm_insertionSort keyLE _).nodup_iff).mpr (List.nodup_dedup _)
  have hmem : k ∈ ((rows.map truncRow).map aggKey).dedup.insertionSort keyLE :=
    ((List.perm_insertionSort keyLE _).mem_iff).mpr (List.mem_dedup.mpr hk)
  have haggk : ∀ k2 : AggKey, aggKey (mkAggRow (rows.map truncRow) k2) = k2 :=
    fun k2 => rfl
  have hfil : (addCfAggregate rows).filter (fun x => decide (aggKey x = k))
      = [mkAggRow (rows.map truncRow) k] := by
    unfold addCfAggregate groupbyMean
    rw [List.filter_map]
    have hcomp : ((fun x => decide (aggKey x = k)) ∘ (mkAggRow (rows.map truncRow)))
        = (fun k2 => decide (k2 = k)) := by
      funext k2
      simp only [Function.comp]
      rw [haggk k2]
    rw [hcomp, filter_eq_singleton_of_nodup _ k hnd hmem]
    rfl
  have hgrp : groupRows (rows.map truncRow) k
      = (rows.map truncRow).filter (fun x => decide (aggKey x = k)) := rfl
  have hne : ¬ (((rows.map truncRow).filter
      (fun x => decide (aggKey x = k))).isEmpty = true) := by
    rw [List.isEmpty_iff]
    intro hnil
    have : r0 ∈ (rows.map truncRow).filter (fun x => decide (aggKey x = k)) :=
      List.mem_filter.mpr ⟨hr0mem, by simp [hr0key]⟩
    rw [hnil] at this
    cases this
  have hmapne : ∀ (f : ObsRow → ℚ),
      ¬ ((((rows.map truncRow).filter
        (fun x => decide (aggKey x = k))).map f).isEmpty = true) := by
    intro f
    rw [List.isEmpty_iff, List.map_eq_nil_iff]
    rw [List.isEmpty_iff] at hne
    exact hne
  obtain ⟨r1, hr1⟩ := List.mem_map.mp hr0mem
  have htmin : k.1.minute = 0 := by
    rw [← hr0key, ← hr1.2]
    rfl
  have htsec : k.1.second = 0 := by
    rw [← hr0key, ← hr1.2]
    rfl
  refine ⟨mkAggRow (rows.map truncRow) k, hfil, htmin, htsec, ?_, ?_, ?_⟩
  all_goals
    show qmean _ = _
    rw [hgrp]
    rw [qmean_sum_div _ (hmapne _), List.length_map]

/-- Witness for `add_cf_hourly_mean_aggregation`: the two raw rows with
values 10 and 20 in one group aggregate to a single row of value 15 (the
mean, not the sum 30). -/
theorem add_cf_hourly_mean_aggregation_witness :
    ∃ r, (addCfAggregate exDupRows).filter
        (fun x => decide (aggKey x = exDupKey)) = [r]
      ∧ r.value = 15 := by
  obtain ⟨r, hfil, hmin, hsec, hval, hlat, hlon⟩ :=
    add_cf_hourly_mean_aggregation exDupRows exDupKey (by decide)
  refine ⟨r, hfil, ?_⟩
  rw [hval]
  have h1 : ((exDupRows.map truncRow).filter
        (fun x => decide (aggKey x = exDupKey))).map (fun x => x.value)
      = [10, 20] := by decide
  have h2 : ((exDupRows.map truncRow).filter
        (fun x => decide (aggKey x = exDupKey))).length = 2 := by decide
  rw [h1, h2]
  norm_num

/-- C8: a mapping entry lacking the `obstype` key is skipped with a
diagnostic and leaves the frame unchanged (first conjunct); an entry
lacking the `cfvars` key never raises (second conjunct; its diagnostic is
printed only at verbose > 0 with matching rows, after the observation
column was copied); and the loop over the mapping still applies all
remaining entries after a skipped one (third conjunct). -/
theorem mapping_entry_skips :
    (∀ (df : List MRow) (idate : Timestamp) (dat : CFData) (lons lats : List ℚ)
        (conv : Option ConvField) (verbose : ℤ) (ivar : String) (vc : VarConfig),
      vc.obstype = none →
      processEntry df idate dat lons lats conv verbose ivar vc
        = .ok (["Warning: no obstype defined for " ++ ivar ++ " - skip variable"], df))
    ∧ (∀ (df : List MRow) (idate : Timestamp) (dat : CFData) (lons lats : List ℚ)
        (conv : Option ConvField) (verbose : ℤ) (ivar : String) (vc : VarConfig),
      vc.cfvars = none →
      ∃ ws df2, processEntry df idate dat lons lats conv verbose ivar vc
        = .ok (ws, df2))
    ∧ (∀ (idate : Timestamp) (dat : CFData) (lons lats : List ℚ)
        (conv : Option ConvField) (verbose : ℤ) (ivar : String) (vc : VarConfig)
        (es1 es2 : List (String × VarConfig)) (df : List MRow),
      vc.obstype = none →
      Except.map Prod.snd
          (processEntries idate dat lons lats conv verbose (es1 ++ (ivar, vc) :: es2) df)
        = Except.map Prod.snd
          (processEntries idate dat lons lats conv verbose (es1 ++ es2) df)) := by
  have ha : ∀ (df : List MRow) (idate : Timestamp) (dat : CFData)
      (lons lats : List ℚ) (conv : Option ConvField) (verbose : ℤ)
      (ivar : String) (vc : VarConfig),
      vc.obstype = none →
      processEntry df idate dat lons lats conv verbose ivar vc
        = .ok (["Warning: no obstype defined for " ++ ivar ++ " - skip variable"], df) := by
    intro df idate dat lons lats conv verbose ivar vc h
    simp [processEntry, h]
  refine ⟨ha, ?_, ?_⟩
  · intro df idate dat lons lats conv verbose ivar vc hcf
    cases hot : vc.obstype with
    | none =>
      exact ⟨_, df, ha df idate dat lons lats conv verbose ivar vc hot⟩
    | some otype =>
      by_cases hidx : (entryIdx df idate otype).isEmpty
      · exact ⟨[], df, by simp [processEntry, hot, hidx]⟩
      · refine ⟨(if 0 < verbose then
            ["Warning: no CF variables defined for " ++ ivar
              ++ " - no CF data will be matched to observations"] else []),
          mapIdxFrom (fun i r =>
            if i ∈ entryIdx df idate otype then { r with conc_obs := some r.value }
            else r) 0 df, ?_⟩
        simp [processEntry, hot, hidx, hcf]
  · intro idate dat lons lats conv verbose ivar vc es1 es2 df hobs
    induction es1 generalizing df with
    | nil =>
      simp only [List.nil_append, processEntries]
      rw [ha df idate dat lons lats conv verbose ivar vc hobs]
      dsimp only
      cases hrest : processEntries idate dat lons lats conv verbose es2 df with
      | error e => simp [Except.map]
      | ok p =>
        obtain ⟨ws2, df2⟩ := p
        simp [Except.map]
    | cons e es1tail ih =>
      obtain ⟨iv, vcc⟩ := e
      simp only [List.cons_append, processEntries]
      cases hpe : processEntry df idate dat lons lats conv verbose iv vcc with
      | error e => simp [Except.map]
      | ok p =>
        obtain ⟨ws, df1⟩ := p
        dsimp only
        have hih := ih df1
        cases hx : processEntries idate dat lons lats conv verbose
            (es1tail ++ (ivar, vc) :: es2) df1 with
        | error e =>
          rw [hx] at hih
          cases hy : processEntries idate dat lons lats conv verbose
              (es1tail ++ es2) df1 with
          | error e2 =>
            rw [hy] at hih
            simp only [Except.map] at hih
            injection hih with he
            subst he
            rfl
          | ok p2 =>
            rw [hy] at hih
            simp [Except.map] at hih
        | ok p1 =>
          obtain ⟨wsx, dfx⟩ := p1
          rw [hx] at hih
          cases hy : processEntries idate dat lons lats conv verbose
              (es1tail ++ es2) df1 with
          | error e2 =>
            rw [hy] at hih
            simp [Except.map] at hih
          | ok p2 =>
            obtain ⟨wsy, dfy⟩ := p2
            rw [hy] at hih
            simp only [Except.map] at hih
            injection hih with he
            subst he
            simp [Except.map]

/-- Witness for `mapping_entry_skips`: a concrete entry without `obstype`
is skipped with the diagnostic and leaves the (empty) frame unchanged. -/
theorem mapping_entry_skips_witness :
    processEntry [] exIdate ⟨none, none, []⟩ [] [] none 1 "badentry"
        ⟨none, none, none, none, none⟩
      = .ok (["Warning: no obstype defined for badentry - skip variable"], []) := by
  rw [mapping_entry_skips.1 [] exIdate ⟨none, none, []⟩ [] [] none 1 "badentry"
    ⟨none, none, none, none, none⟩ rfl]
  decide

/-- C2: on a table with two rows at the single string-labelled location
"A" (model 2 against obs 1, model 4 against obs 2), the location is
retained (2 observations with min_obs 2) but its NMB column is NaN,
whereas the claimed value sum(bias)/sum(obs) is 1: the series assigned at
statistics.py line 57 is indexed by the integer positions of the
reset_index()-ed sum frame and cannot align with a string location
label. -/
theorem nmb_misaligned_assignment :
    compute_metrics_by_location exStatRows (some 2)
        = [{ location := .str "A", NMB := none }]
      ∧ (((2 - 1) + (4 - 2) : ℚ)) / (1 + 2) = 1 := by
  constructor
  · decide
  · norm_num

/-- Map of an index-aware map under a projection that discards the data. -/
theorem mapIdxFrom_map_eq {α β γ : Type} (f : ℕ → α → β) (g : β → γ)
    (h : ℕ → α → γ) (hfg : ∀ i a, g (f i a) = h i a) :
    ∀ (l : List α) (j : ℕ), (mapIdxFrom f j l).map g = mapIdxFrom h j l := by
  intro l
  induction l with
  | nil => intro j; rfl
  | cons a l ih =>
    intro j
    simp [mapIdxFrom, hfg, ih]

/-- An index-aware map whose body ignores the index is the identity. -/
theorem mapIdxFrom_id {α : Type} :
    ∀ (l : List α) (j : ℕ), mapIdxFrom (fun _ a => a) j l = l := by
  intro l
  induction l with
  | nil => intro j; rfl
  | cons a l ih =>
    intro j
    simp [mapIdxFrom, ih]

/-- An index-aware map whose body ignores the data enumerates positions. -/
theorem mapIdxFrom_const {γ α : Type} (g : ℕ → γ) :
    ∀ (l : List α) (j : ℕ),
      mapIdxFrom (fun i _ => g i) j l
        = (List.range l.length).map (fun i => g (j + i)) := by
  intro l
  induction l with
  | nil => intro j; rfl
  | cons a l ih =>
    intro j
    simp only [mapIdxFrom, List.length_cons, List.range_succ_eq_map,
      List.map_cons, List.map_map]
    rw [ih (j + 1)]
    have htail : (List.range l.length).map (fun i => g (j + 1 + i))
        = (List.range l.length).map ((fun i => g (j + i)) ∘ Nat.succ) := by
      apply List.map_congr_left
      intro i _
      simp only [Function.comp]
      congr 1
      omega
    rw [htail]
    rfl

/-- Every element of an index-aware map comes from an element of the
source list. -/
theorem mem_mapIdxFrom {α β : Type} (f : ℕ → α → β) :
    ∀ (l : List α) (j : ℕ) (b : β), b ∈ mapIdxFrom f j l
      → ∃ i a, a ∈ l ∧ b = f i a := by
  intro l
  induction l with
  | nil => intro j b h; cases h
  | cons a l ih =>
    intro j b h
    rcases List.mem_cons.mp h with h2 | h2
    · exact ⟨j, a, List.mem_cons_self a l, h2⟩
    · obtain ⟨i, a2, ha2, hb⟩ := ih (j + 1) b h2
      exact ⟨i, a2, List.mem_cons_of_mem _ ha2, hb⟩

/-- The running minimum stays among the seen values. -/
theorem foldlMin_mem :
    ∀ (l : List String) (s : String),
      l.foldl (fun a b => if b < a then b else a) s ∈ s :: l := by
  intro l
  induction l with
  | nil => intro s; simp
  | cons b l ih =>
    intro s
    simp only [List.foldl_cons]
    have h := ih (if b < s then b else s)
    rcases List.mem_cons.mp h with h2 | h2
    · rw [h2]
      by_cases hb : b < s
      · simp [hb]
      · simp [hb]
    · exact List.mem_cons_of_mem _ (List.mem_cons_of_mem _ h2)

/-- Python min over a nonempty string list returns one of its members. -/
theorem minString_mem (l : List String) (h : l ≠ []) : minString l ∈ l := by
  match l, h with
  | s :: rest, _ =>
    exact foldlMin_mem rest s

/-- The projections of a new stations-table entry. -/
theorem mkStRow_fields (nstat i : ℕ) (mid : ℚ) (oname : String)
    (mlat mlon : ℚ) (lats lons : Option (List ℚ)) :
    (mkStRow nstat i mid oname mlat mlon lats lons).location
        = stationName (nstat + i)
      ∧ (mkStRow nstat i mid oname mlat mlon lats lons).original_station_name
        = oname
      ∧ (mkStRow nstat i mid oname mlat mlon lats lons).latlon_id = mid := by
  cases lats <;> cases lons <;> exact ⟨rfl, rfl, rfl⟩

/-- The canonical name of the i-th new entry. -/
theorem mkNewEntry_location (nstat : ℕ) (df2 : List ObsLocRow)
    (lats lons : Option (List ℚ)) (i : ℕ) (mid : ℚ) :
    (mkNewEntry nstat df2 lats lons i mid).location = stationName (nstat + i) :=
  (mkStRow_fields nstat i mid _ _ _ lats lons).1

/-- The identity carried by the i-th new entry. -/
theorem mkNewEntry_id (nstat : ℕ) (df2 : List ObsLocRow)
    (lats lons : Option (List ℚ)) (i : ℕ) (mid : ℚ) :
    (mkNewEntry nstat df2 lats lons i mid).latlon_id = mid :=
  (mkStRow_fields nstat i mid _ _ _ lats lons).2.2

/-- The original name carried by the i-th new entry. -/
theorem mkNewEntry_orig (nstat : ℕ) (df2 : List ObsLocRow)
    (lats lons : Option (List ℚ)) (i : ℕ) (mid : ℚ) :
    (mkNewEntry nstat df2 lats lons i mid).original_station_name
      = minString ((df2.filter (fun r => decide (obsId r = mid))).map
          (fun r => r.original_station_name)) :=
  (mkStRow_fields nstat i mid _ _ _ lats lons).2.1

/-- The canonical names of the new entries are the consecutive
`stationName` values continuing at `nstat`. -/
theorem newStationRows_locations (nstat : ℕ) (df2 : List ObsLocRow)
    (missing : List ℚ) (lats lons : Option (List ℚ)) :
    (newStationRows nstat df2 missing lats lons).map (fun e => e.location)
      = (List.range missing.length).map (fun i => stationName (nstat + i)) := by
  unfold newStationRows
  rw [mapIdxFrom_map_eq (mkNewEntry nstat df2 lats lons) (fun e => e.location)
    (fun i _ => stationName (nstat + i))
    (fun i mid => mkNewEntry_location nstat df2 lats lons i mid) missing 0]
  rw [mapIdxFrom_const]
  apply List.map_congr_left
  intro i _
  rw [Nat.zero_add]

/-- The identities of the new entries are exactly the missing ids. -/
theorem newStationRows_ids (nstat : ℕ) (df2 : List ObsLocRow)
    (missing : List ℚ) (lats lons : Option (List ℚ)) :
    (newStationRows nstat df2 missing lats lons).map (fun e => e.latlon_id)
      = missing := by
  unfold newStationRows
  rw [mapIdxFrom_map_eq (mkNewEntry nstat df2 lats lons) (fun e => e.latlon_id)
    (fun _ a => a)
    (fun i mid => mkNewEntry_id nstat df2 lats lons i mid) missing 0]
  rw [mapIdxFrom_id]

/-- One new entry per missing identity. -/
theorem newStationRows_length (nstat : ℕ) (df2 : List ObsLocRow)
    (missing : List ℚ) (lats lons : Option (List ℚ)) :
    (newStationRows nstat df2 missing lats lons).length = missing.length := by
  unfold newStationRows
  rw [mapIdxFrom_length]

/-- Every missing identity has at least one observation row carrying it. -/
theorem missingIds_mem_row (df2 : List ObsLocRow) (stIds : List ℚ) (mid : ℚ)
    (h : mid ∈ missingIds df2 stIds) :
    ∃ r, r ∈ df2 ∧ obsId r = mid := by
  unfold missingIds at h
  have h2 := List.mem_dedup.mp (((List.perm_insertionSort qLE _).mem_iff).mp h)
  have h3 := List.mem_filter.mp h2
  obtain ⟨r, hr, hrid⟩ := List.mem_map.mp h3.1
  exact ⟨r, hr, hrid⟩

/-- C4: update_stations_info is idempotent and append-only on a registry
with no placeholder-tagged entries: identities already present add no
entries and change none (first conjunct), and new identities only append
entries carrying sequential canonical names that continue from the
current registry size, in ascending identity order, never renumbering an
existing entry (second conjunct). -/
theorem update_stations_append_only
    (df : List ObsLocRow) (st : List StRow) (lats lons : Option (List ℚ))
    (hst : st ≠ [])
    (hstu : ∀ e ∈ st, e.original_station_name ≠ "unknown")
    (hdfu : ∀ r ∈ df, r.original_station_name ≠ "unknown") :
    ((∀ r ∈ df, latlon_id (round4 r.lat) (round4 r.lon)
        ∈ st.map (fun e => e.latlon_id)) →
      (update_stations_info df st lats lons).2 = st)
    ∧ (∃ new, (update_stations_info df st lats lons).2 = st ++ new
        ∧ new.map (fun e => e.location)
            = (List.range new.length).map (fun i => stationName (st.length + i))
        ∧ new.map (fun e => e.latlon_id)
            = missingIds (df.map roundObsRow) (st.map (fun e => e.latlon_id))) := by
  have hempty : st.isEmpty = false := by
    cases st with
    | nil => exact absurd rfl hst
    | cons a l => rfl
  have hsnd : (update_stations_info df st lats lons).2
      = updatedStationsTable df st lats lons := rfl
  have htable : updatedStationsTable df st lats lons
      = (if (missingIds (df.map roundObsRow)
            (st.map (fun e => e.latlon_id))).isEmpty then st
        else (st ++ newStationRows st.length (df.map roundObsRow)
            (missingIds (df.map roundObsRow) (st.map (fun e => e.latlon_id)))
            lats lons).filter
          (fun e => decide (¬ e.original_station_name = "unknown"))) := by
    unfold updatedStationsTable
    rw [hempty]
    rfl
  constructor
  · intro hin
    have hmiss : missingIds (df.map roundObsRow)
        (st.map (fun e => e.latlon_id)) = [] := by
      unfold missingIds
      have hfil : ((df.map roundObsRow).map obsId).filter
          (fun i => decide (¬ i ∈ st.map (fun e => e.latlon_id))) = [] := by
        rw [List.filter_eq_nil_iff]
        intro x hx
        simp only [decide_eq_true_eq, not_not]
        obtain ⟨r2, hr2, hx2⟩ := List.mem_map.mp hx
        obtain ⟨r, hr, hre⟩ := List.mem_map.mp hr2
        have : obsId r2 = latlon_id (round4 r.lat) (round4 r.lon) := by
          rw [← hre]
          rfl
        rw [← hx2, this]
        exact hin r hr
      rw [hfil]
      rfl
    rw [hsnd, htable, hmiss]
    rfl
  · by_cases hm : missingIds (df.map roundObsRow)
        (st.map (fun e => e.latlon_id)) = []
    · refine ⟨[], ?_, rfl, ?_⟩
      · rw [hsnd, htable, hm]
        simp
      · rw [hm]
        rfl
    · have hmne : (missingIds (df.map roundObsRow)
          (st.map (fun e => e.latlon_id))).isEmpty = false := by
        cases hq : missingIds (df.map roundObsRow)
            (st.map (fun e => e.latlon_id)) with
        | nil => exact absurd hq hm
        | cons a l => rfl
      have hnewpass : ∀ e ∈ newStationRows st.length (df.map roundObsRow)
          (missingIds (df.map roundObsRow) (st.map (fun e2 => e2.latlon_id)))
          lats lons, e.original_station_name ≠ "unknown" := by
        intro e he
        unfold newStationRows at he
        obtain ⟨i, mid, hmid, hbe⟩ := mem_mapIdxFrom _ _ _ _ he
        obtain ⟨r0, hr0, hr0id⟩ := missingIds_mem_row _ _ _ hmid
        have hgrpne : (df.map roundObsRow).filter
            (fun r => decide (obsId r = mid)) ≠ [] := by
          intro hnil
          have hmem : r0 ∈ (df.map roundObsRow).filter
              (fun r => decide (obsId r = mid)) :=
            List.mem_filter.mpr ⟨hr0, by simp [hr0id]⟩
          rw [hnil] at hmem
          cases hmem
        have hnames : ((df.map roundObsRow).filter
            (fun r => decide (obsId r = mid))).map
            (fun r => r.original_station_name) ≠ [] := by
          intro hnil
          exact hgrpne (List.map_eq_nil_iff.mp hnil)
        have hminmem := minString_mem _ hnames
        obtain ⟨r1, hr1, hr1n⟩ := List.mem_map.mp hminmem
        have hr1df := (List.mem_filter.mp hr1).1
        obtain ⟨r2, hr2, hr2e⟩ := List.mem_map.mp hr1df
        rw [hbe, mkNewEntry_orig, ← hr1n, ← hr2e]
        exact hdfu r2 hr2
      have hst1 : (update_stations_info df st lats lons).2
          = st ++ newStationRows st.length (df.map roundObsRow)
              (missingIds (df.map roundObsRow) (st.map (fun e => e.latlon_id)))
              lats lons := by
        rw [hsnd, htable, hmne]
        simp only [Bool.false_eq_true, if_false]
        rw [List.filter_append]
        have h1 : st.filter (fun e => decide (¬ e.original_station_name = "unknown"))
            = st := by
          rw [List.filter_eq_self]
          intro e he
          simp only [decide_eq_true_eq]
          exact hstu e he
        have h2 : (newStationRows st.length (df.map roundObsRow)
            (missingIds (df.map roundObsRow) (st.map (fun e => e.latlon_id)))
            lats lons).filter
            (fun e => decide (¬ e.original_station_name = "unknown"))
            = newStationRows st.length (df.map roundObsRow)
              (missingIds (df.map roundObsRow) (st.map (fun e => e.latlon_id)))
              lats lons := by
          rw [List.filter_eq_self]
          intro e he
          simp only [decide_eq_true_eq]
          exact hnewpass e he
        rw [h1, h2]
      refine ⟨_, hst1, ?_, ?_⟩
      · rw [newStationRows_length, newStationRows_locations]
      · rw [newStationRows_ids]

/-- Witness for `update_stations_append_only`: re-resolving a row whose
rounded identity is already registered leaves the one-entry registry
unchanged. -/
theorem update_stations_append_only_witness :
    (update_stations_info exStDf [exStRow1] none none).2 = [exStRow1] := by
  have h := update_stations_append_only exStDf [exStRow1] none none
    (by simp)
    (by
      intro e he
      rw [List.mem_singleton.mp he]
      decide)
    (by
      intro r hr
      rw [List.mem_singleton.mp hr]
      decide)
  apply h.1
  intro r hr
  rw [List.mem_singleton.mp hr]
  simp [exStDf, exStRow1]

/-- Witness for `to_ppbv_unit_dispatch`: a `ppmv` row of value 1.0 becomes
exactly 1000.0 ppbv. -/
theorem to_ppbv_unit_dispatch_witness :
    (ppbvStage2 [exPpmvRow] (ppbvSelP [exPpmvRow] [0]))[0]?
      = some { exPpmvRow with conc_obs := qnMul (some 1) (some 1000) } := by
  have h := to_ppbv_unit_dispatch [exPpmvRow] none 1 none none 1 [0]
    (ppbvStage2 [exPpmvRow] (ppbvSelP [exPpmvRow] [0])) 0 exPpmvRow
    (by rfl) (by decide) (by decide)
  exact h.1 (Or.inl (by decide))

end CFObs
